import Mathlib

/-!
# Session persistence of the DSView main window

A shallow embedding of the session save/load code of
`DSView/pv/mainwindow.cpp` (`on_load_session`, `load_session_json`,
`gen_session_json`, `on_store_session`) together with the properties proved
about it.

Conventions of the embedding.

* A Qt JSON number is a `double`; it is modelled by the rational number it
  denotes (`Rat`).  No arithmetic is ever done on these numbers, they are only
  stored and compared.
* Objects reached through pointers (`_device_agent`, `_session`, the docks, the
  `AppConfig` singleton) are fields of one explicit state record, `MainWindow`.
  A member function that can write to them returns the state it leaves.
* The file system is an explicit record (`QFileSystem`).
-/

set_option linter.unusedVariables false

namespace DSView

/-! ## Qt JSON values -/

/-- A `QJsonValue`.  An object is kept as a list of key/value pairs in which a
key occurs at most once when it is built with `QJsonObject.set`. -/
inductive QJsonValue where
  | null
  | undefined
  | bool (b : Bool)
  | double (d : Rat)
  | string (s : String)
  | array (items : List QJsonValue)
  | object (members : List (String × QJsonValue))

/-- A `QJsonObject`: the members of an object value. -/
abbrev QJsonObject := List (String × QJsonValue)

/-- A `QJsonArray`. -/
abbrev QJsonArray := List QJsonValue

namespace QJsonObject

/-- The value of `obj[key]` read from a constant object: the member stored under
`key`, or `undefined` when there is none. -/
def get : QJsonObject → String → QJsonValue
  | [], _ => QJsonValue.undefined
  | (k, v) :: rest, key => if k = key then v else get rest key

/-- The test `obj.contains(key)`. -/
def contains : QJsonObject → String → Bool
  | [], _ => false
  | (k, _) :: rest, key => if k = key then true else contains rest key

/-- The assignment `obj[key] = value`: replaces the member stored under `key`,
or adds one when there is none. -/
def set : QJsonObject → String → QJsonValue → QJsonObject
  | [], key, value => [(key, value)]
  | (k, v) :: rest, key, value =>
      if k = key then (k, value) :: rest else (k, v) :: set rest key value

end QJsonObject

namespace QJsonValue

/-- The conversion `toInt()`: the number when the value is a number that is a
whole `int`, and 0 otherwise. -/
def toInt : QJsonValue → Int
  | double d => if d.den = 1 ∧ -2147483648 ≤ d.num ∧ d.num ≤ 2147483647 then d.num else 0
  | _ => 0

/-- The conversion `toDouble()`: the number, and 0 for a value that is none. -/
def toDouble : QJsonValue → Rat
  | double d => d
  | _ => 0

/-- The conversion `toBool()`. -/
def toBool : QJsonValue → Bool
  | bool b => b
  | _ => false

/-- The conversion `toString()`: the text, and the empty text for a value that
is no string. -/
def toString : QJsonValue → String
  | string s => s
  | _ => ""

/-- The test `isBool()`. -/
def isBool : QJsonValue → Bool
  | bool _ => true
  | _ => false

/-- The test `isString()`. -/
def isString : QJsonValue → Bool
  | string _ => true
  | _ => false

/-- The conversion `toArray()`. -/
def toArray : QJsonValue → QJsonArray
  | array items => items
  | _ => []

/-- The conversion `toObject()`. -/
def toObject : QJsonValue → QJsonObject
  | object members => members
  | _ => []

end QJsonValue

/-- A `QJsonDocument`: null (the result of a failed parse), an object or an
array. -/
inductive QJsonDocument where
  | null
  | object (o : QJsonObject)
  | array (a : QJsonArray)

/-- The accessor `QJsonDocument::object()`: the object the document holds, the
empty object when it holds none. -/
def QJsonDocument.toObject : QJsonDocument → QJsonObject
  | QJsonDocument.object o => o
  | _ => []

/-- The test `QJsonDocument::isNull()`: whether the document holds nothing, as
after a failed parse. -/
def QJsonDocument.isNull : QJsonDocument → Bool
  | QJsonDocument.null => true
  | _ => false

/-! ## The device, the signals and the window state -/

/-- BASE_SESSION_VERSION, the session format version (mainwindow.cpp, line 98). -/
def BASE_SESSION_VERSION : Int := 2

/-- Modelled from the spec: the work mode constant `LOGIC` of the device layer
(an enumerator declared outside this file); only that it differs from `DSO`
matters. -/
def LOGIC : Int := 0

/-- Modelled from the spec: the work mode constant `DSO` of the device layer
(an enumerator declared outside this file). -/
def DSO : Int := 1

/-- The datatype tag of a device option descriptor (`info->datatype`).  The tags
the session code tests are listed; every other tag is `other`. -/
inductive sr_datatype where
  | SR_T_BOOL
  | SR_T_UINT64
  | SR_T_UINT8
  | SR_T_FLOAT
  | SR_T_CHAR
  | other (tag : Nat)
  deriving DecidableEq

/-- A device option descriptor, `struct sr_config_info`. -/
structure sr_config_info where
  key : Int
  datatype : sr_datatype
  name : String

/-- A `GVariant` holding the value of a device option. -/
inductive GVariant where
  | boolean (b : Bool)
  | uint64 (n : Nat)
  | byte (n : Nat)
  | double (d : Rat)
  | string (s : String)
  | other

/-- The glib reader `g_variant_get_boolean`; a variant of another type reads as
`FALSE`. -/
def g_variant_get_boolean : GVariant → Bool
  | GVariant.boolean b => b
  | _ => false

/-- The glib reader `g_variant_get_uint64`; a variant of another type reads as 0. -/
def g_variant_get_uint64 : GVariant → Nat
  | GVariant.uint64 n => n % 2 ^ 64
  | _ => 0

/-- The glib reader `g_variant_get_byte`; a variant of another type reads as 0. -/
def g_variant_get_byte : GVariant → Nat
  | GVariant.byte n => n % 2 ^ 8
  | _ => 0

/-- The glib reader `g_variant_get_double`; a variant of another type reads as 0. -/
def g_variant_get_double : GVariant → Rat
  | GVariant.double d => d
  | _ => 0

/-- The glib reader `g_variant_get_string`; a variant of another type reads as
the empty text. -/
def g_variant_get_string : GVariant → String
  | GVariant.string s => s
  | _ => ""

/-- The conversion `QString::number` of an unsigned integer: its decimal text. -/
def QString.number (n : Nat) : String := Nat.repr n

/-- The conversion `QString::number` of an `int`: its decimal text. -/
def QString.numberInt (n : Int) : String :=
  if n < 0 then "-" ++ Nat.repr n.natAbs else Nat.repr n.natAbs

/-- A probe of the device instance, `struct sr_channel`. -/
structure sr_channel where
  index : Int
  type : Int
  enabled : Bool
  name : String
  vdiv : Rat
  coupling : Rat
  vfactor : Rat
  trig_value : Rat
  map_unit : String
  map_min : Rat
  map_max : Rat

/-- The device agent (`_device_agent`): what its accessors return. -/
structure DeviceAgent where
  /-- The result of `have_instance()`. -/
  have_instance : Bool
  /-- The result of `name()`. -/
  name : String
  /-- The result of `driver_name()`. -/
  driver_name : String
  /-- The result of `get_work_mode()`. -/
  work_mode : Int
  /-- The result of `get_config_list(NULL, SR_CONF_DEVICE_SESSIONS)`: the option
  keys of the fixed array, `none` for `NULL`. -/
  config_list : Option (List Int)
  /-- The result of `get_config_info(key)`. -/
  config_info : Int → sr_config_info
  /-- The result of `get_config(NULL, NULL, key)`: `none` for `NULL`. -/
  config : Int → Option GVariant
  /-- The probes of the device instance, `dev_inst()->channels`. -/
  channels : List sr_channel

/-- A `QColor`: whether it is valid and the text it converts to. -/
structure QColor where
  isValid : Bool
  name : String

/-- The settings read from a `view::LogicSignal`. -/
structure LogicSignal where
  trig : Int

/-- The settings read from a `view::DsoSignal`. -/
structure DsoSignal where
  vDialValue : Nat
  factor : Nat
  acCoupling : Int
  trig_vrate : Rat
  zero_ratio : Rat
  vDialActive : Bool

/-- The settings read from a `view::AnalogSignal`. -/
structure AnalogSignal where
  vdiv : Nat
  factor : Nat
  acCoupling : Int
  zero_ratio : Rat
  mapUnit : String
  mapMin : Rat
  mapMax : Rat

/-- The dynamic class of a signal, which the `dynamic_cast`s of the session code
test: a signal is of at most one of the three signal classes. -/
inductive SignalKind where
  | logic (s : LogicSignal)
  | dso (s : DsoSignal)
  | analog (s : AnalogSignal)
  | plain

/-- A signal of the session, `view::Signal`. -/
structure Signal where
  index : Int
  type : Int
  enabled : Bool
  name : String
  colour : QColor
  kind : SignalKind

/-- The frame options of the application configuration,
`AppConfig::Instance()._frameOptions`. -/
structure FrameOptions where
  language : Int
  style : String
  windowState : String

/-- The live state the main window works on. -/
structure MainWindow where
  /-- The device agent, `_device_agent`. -/
  device_agent : DeviceAgent
  /-- The signal list of the session, `_session->get_signals()`. -/
  signals : List Signal
  /-- The trigger configuration, as `_trigger_widget->get_session()` returns it. -/
  trigger_session : QJsonObject
  /-- The decoder configuration, as `StoreSession::json_decoders` writes it. -/
  decoders : QJsonArray
  /-- The measurement state, as `_view->get_viewstatus()->get_session()` returns it. -/
  measure_session : QJsonArray
  /-- The frame options of the application configuration. -/
  frameOptions : FrameOptions
  trigger_dock_visible : Bool
  dso_trigger_dock_visible : Bool
  protocol_dock_visible : Bool
  measure_dock_visible : Bool
  search_dock_visible : Bool

/-! ## Loading a session -/

/-- The file system as the session code sees it: which paths open for reading,
which open for writing, and the text each path holds. -/
structure QFileSystem where
  /-- Whether `QFile::open(QIODevice::ReadOnly)` succeeds on the path. -/
  canRead : String → Bool
  /-- Whether `QFile::open(QIODevice::WriteOnly | QIODevice::Text)` succeeds. -/
  canWrite : String → Bool
  /-- The text of the file at the path. -/
  data : String → String

/-- The function `MainWindow::load_session_json` (mainwindow.cpp, lines 622-815).
The whole body between `QJsonObject sessionObj = json.object();` and
`return true;` is inside one comment, so the function reads the object and
returns `true`.  The result is the returned flag and the state left behind. -/
def load_session_json (w : MainWindow) (json : QJsonDocument) (file_dev : Bool)
    (bDecoder : Bool) : Bool × MainWindow :=
  let sessionObj : QJsonObject := json.toObject
  -- check session file version, check device and mode, clear decoders, load
  -- device, channel, signal, trigger, decoder and measure settings: commented out
  (true, w)

/-- The function `MainWindow::on_load_session` (mainwindow.cpp, lines 607-620).
`fromJson` is `QJsonDocument::fromJson`, the JSON reader of Qt; the call passes
no `bDecoder`, which takes its default, `true`. -/
def on_load_session (fromJson : String → QJsonDocument) (fs : QFileSystem)
    (w : MainWindow) (name : String) : Bool × MainWindow :=
  if !fs.canRead name then
    (false, w)
  else
    let sessionData : String := fs.data name
    let sessionDoc : QJsonDocument := fromJson sessionData
    load_session_json w sessionDoc false true

/-! ## Writing a session -/

/-- One pass of the device option loop of `gen_session_json` (lines 842-860) for
the option key `option`.  The result of `g_variant_get_boolean` is a `gboolean`,
which is an `int`, so `QJsonValue::fromVariant` makes the number 1 or 0 of it. -/
def gen_session_option (dev : DeviceAgent) (sessionVar : QJsonObject) (option : Int) :
    QJsonObject :=
  let info := dev.config_info option
  match dev.config info.key with
  | none => sessionVar
  | some gvar =>
    match info.datatype with
    | sr_datatype.SR_T_BOOL =>
        QJsonObject.set sessionVar info.name
          (QJsonValue.double (if g_variant_get_boolean gvar then 1 else 0))
    | sr_datatype.SR_T_UINT64 =>
        QJsonObject.set sessionVar info.name
          (QJsonValue.string (QString.number (g_variant_get_uint64 gvar)))
    | sr_datatype.SR_T_UINT8 =>
        QJsonObject.set sessionVar info.name
          (QJsonValue.string (QString.number (g_variant_get_byte gvar)))
    | sr_datatype.SR_T_FLOAT =>
        QJsonObject.set sessionVar info.name (QJsonValue.double (g_variant_get_double gvar))
    | sr_datatype.SR_T_CHAR =>
        QJsonObject.set sessionVar info.name (QJsonValue.string (g_variant_get_string gvar))
    | sr_datatype.other _ => sessionVar

/-- The fields a signal of each class adds to its channel record (lines 874-900). -/
def gen_session_kind (s_obj : QJsonObject) : SignalKind → QJsonObject
  | SignalKind.logic logicSig =>
      QJsonObject.set s_obj "strigger" (QJsonValue.double logicSig.trig)
  | SignalKind.dso dsoSig =>
      let s_obj := QJsonObject.set s_obj "vdiv" (QJsonValue.double dsoSig.vDialValue)
      let s_obj := QJsonObject.set s_obj "vfactor" (QJsonValue.double dsoSig.factor)
      let s_obj := QJsonObject.set s_obj "coupling" (QJsonValue.double dsoSig.acCoupling)
      let s_obj := QJsonObject.set s_obj "trigValue" (QJsonValue.double dsoSig.trig_vrate)
      QJsonObject.set s_obj "zeroPos" (QJsonValue.double dsoSig.zero_ratio)
  | SignalKind.analog analogSig =>
      let s_obj := QJsonObject.set s_obj "vdiv" (QJsonValue.double analogSig.vdiv)
      let s_obj := QJsonObject.set s_obj "vfactor" (QJsonValue.double analogSig.factor)
      let s_obj := QJsonObject.set s_obj "coupling" (QJsonValue.double analogSig.acCoupling)
      let s_obj := QJsonObject.set s_obj "zeroPos" (QJsonValue.double analogSig.zero_ratio)
      let s_obj := QJsonObject.set s_obj "mapUnit" (QJsonValue.string analogSig.mapUnit)
      let s_obj := QJsonObject.set s_obj "mapMin" (QJsonValue.double analogSig.mapMin)
      QJsonObject.set s_obj "mapMax" (QJsonValue.double analogSig.mapMax)
  | SignalKind.plain => s_obj

/-- The channel record `s_obj` that `gen_session_json` builds for one signal
(the body of the loop of lines 862-902). -/
def gen_session_channel (s : Signal) : QJsonObject :=
  let s_obj : QJsonObject := []
  let s_obj := QJsonObject.set s_obj "index" (QJsonValue.double s.index)
  let s_obj := QJsonObject.set s_obj "type" (QJsonValue.double s.type)
  let s_obj := QJsonObject.set s_obj "enabled" (QJsonValue.bool s.enabled)
  let s_obj := QJsonObject.set s_obj "name" (QJsonValue.string s.name)
  let s_obj :=
    if s.colour.isValid then
      QJsonObject.set s_obj "colour" (QJsonValue.string s.colour.name)
    else
      QJsonObject.set s_obj "colour" (QJsonValue.string "default")
  gen_session_kind s_obj s.kind

/-- What a call of `gen_session_json` leaves: the returned flag, the object
passed by reference, and the window state. -/
structure GenResult where
  ret : Bool
  sessionVar : QJsonObject
  window : MainWindow

/-- The function `MainWindow::gen_session_json` (mainwindow.cpp, lines 817-921).
`sessionVar` is the object passed by reference.  What the calls of the body on
the device agent, the session, the signals, the trigger widget and the view
return is read off the state here; `gen_session_json_calls` below has each of
these calls as a step of its own. -/
def gen_session_json (w : MainWindow) (sessionVar : QJsonObject) : GenResult :=
  let sessionVar := QJsonObject.set sessionVar "Version" (QJsonValue.double BASE_SESSION_VERSION)
  let sessionVar := QJsonObject.set sessionVar "Device" (QJsonValue.string w.device_agent.driver_name)
  let sessionVar := QJsonObject.set sessionVar "DeviceMode" (QJsonValue.double w.device_agent.work_mode)
  let sessionVar := QJsonObject.set sessionVar "Language" (QJsonValue.double w.frameOptions.language)
  match w.device_agent.config_list with
  | none => { ret := false, sessionVar := sessionVar, window := w }
  | some options =>
    let sessionVar := options.foldl (gen_session_option w.device_agent) sessionVar
    let channelVar : QJsonArray :=
      w.signals.map (fun s => QJsonValue.object (gen_session_channel s))
    let sessionVar := QJsonObject.set sessionVar "channel" (QJsonValue.array channelVar)
    let sessionVar :=
      if w.device_agent.work_mode = LOGIC then
        QJsonObject.set sessionVar "trigger" (QJsonValue.object w.trigger_session)
      else sessionVar
    let decodeJson : QJsonArray := w.decoders
    let sessionVar := QJsonObject.set sessionVar "decoder" (QJsonValue.array decodeJson)
    let sessionVar :=
      if w.device_agent.work_mode = DSO then
        QJsonObject.set sessionVar "measure" (QJsonValue.array w.measure_session)
      else sessionVar
    { ret := true, sessionVar := sessionVar, window := w }

/-! ### The calls that `gen_session_json` makes

The bodies of the functions that `gen_session_json` calls on the device agent,
the session, the signals, the trigger widget, the decoder store and the view
are outside this file.  Each is given here as a step that returns a value and
the state it leaves. -/

/-- A call on the window state: the value it returns and the state it leaves. -/
abbrev Accessor (α : Type) := MainWindow → α × MainWindow

/-- Modelled from the spec: the body of `DeviceAgent::driver_name()` is missing;
serialization "reads device option descriptors" and "never mutates state", so
the call returns the driver name and leaves the state as it was. -/
def call_driver_name : Accessor String :=
  fun w => (w.device_agent.driver_name, w)

/-- Modelled from the spec: the body of `DeviceAgent::get_work_mode()` is
missing; serialization "never mutates state", so the call returns the device
mode and leaves the state as it was. -/
def call_get_work_mode : Accessor Int :=
  fun w => (w.device_agent.work_mode, w)

/-- Modelled from the spec: the body of `DeviceAgent::get_config_list` is
missing; it is the "device option-descriptor enumeration" that serialization
reads, so the call returns the option list and leaves the state as it was. -/
def call_get_config_list : Accessor (Option (List Int)) :=
  fun w => (w.device_agent.config_list, w)

/-- Modelled from the spec: the body of `DeviceAgent::get_config_info` is
missing; it gives the descriptor "(key, name, datatype tag)" of an option, so
the call returns the descriptor and leaves the state as it was. -/
def call_get_config_info (option : Int) : Accessor sr_config_info :=
  fun w => (w.device_agent.config_info option, w)

/-- Modelled from the spec: the body of `DeviceAgent::get_config` is missing; it
is the "typed get ... config by key" that serialization reads with, so the call
returns the value of the option and leaves the state as it was. -/
def call_get_config (key : Int) : Accessor (Option GVariant) :=
  fun w => (w.device_agent.config key, w)

/-- Modelled from the spec: the body of `SigSession::get_signals()` is missing;
it is the "channel list enumeration" that serialization reads, so the call
returns the signal list and leaves the state as it was. -/
def call_get_signals : Accessor (List Signal) :=
  fun w => (w.signals, w)

/-- Modelled from the spec: the bodies of the getters of a signal (`get_index`,
`get_type`, `enabled`, `get_name`, `get_colour`, `get_trig`, `get_vDialValue`,
`get_vdiv`, `get_factor`, `get_acCoupling`, `get_trig_vrate`, `get_zero_ratio`,
`get_mapUnit`, `get_mapMin`, `get_mapMax`) are missing; serialization reads the
"live channel list" and "never mutates state", so the calls return the settings
of the signal and leave the state as it was. -/
def call_signal_getters (s : Signal) : Accessor Signal :=
  fun w => (s, w)

/-- Modelled from the spec: the body of `TriggerDock::get_session()` is missing;
serialization reads the "trigger state" and "never mutates state", so the call
returns the trigger configuration and leaves the state as it was. -/
def call_trigger_get_session : Accessor QJsonObject :=
  fun w => (w.trigger_session, w)

/-- Modelled from the spec: the body of `StoreSession::json_decoders` is
missing; serialization reads the "decoder list" and "never mutates state", so
the call returns the decoder array and leaves the state as it was. -/
def call_json_decoders : Accessor QJsonArray :=
  fun w => (w.decoders, w)

/-- Modelled from the spec: the body of `ViewStatus::get_session()` is missing;
serialization reads the "measurement state" and "never mutates state", so the
call returns the measurement array and leaves the state as it was. -/
def call_measure_get_session : Accessor QJsonArray :=
  fun w => (w.measure_session, w)

/-- One pass of the device option loop of `gen_session_json` (lines 842-860),
with its calls `get_config_info` and `get_config` as steps on the state. -/
def gen_session_option_calls (st : QJsonObject × MainWindow) (option : Int) :
    QJsonObject × MainWindow :=
  let info := call_get_config_info option st.2
  let gvar := call_get_config info.1.key info.2
  match gvar.1 with
  | none => (st.1, gvar.2)
  | some v =>
    match info.1.datatype with
    | sr_datatype.SR_T_BOOL =>
        (QJsonObject.set st.1 info.1.name
          (QJsonValue.double (if g_variant_get_boolean v then 1 else 0)), gvar.2)
    | sr_datatype.SR_T_UINT64 =>
        (QJsonObject.set st.1 info.1.name
          (QJsonValue.string (QString.number (g_variant_get_uint64 v))), gvar.2)
    | sr_datatype.SR_T_UINT8 =>
        (QJsonObject.set st.1 info.1.name
          (QJsonValue.string (QString.number (g_variant_get_byte v))), gvar.2)
    | sr_datatype.SR_T_FLOAT =>
        (QJsonObject.set st.1 info.1.name (QJsonValue.double (g_variant_get_double v)), gvar.2)
    | sr_datatype.SR_T_CHAR =>
        (QJsonObject.set st.1 info.1.name (QJsonValue.string (g_variant_get_string v)), gvar.2)
    | sr_datatype.other _ => (st.1, gvar.2)

/-- One pass of the signal loop of `gen_session_json` (lines 862-902), with the
getter calls on the signal as a step on the state: the record of the signal is
appended to `channelVar`. -/
def gen_session_channel_calls (st : QJsonArray × MainWindow) (s : Signal) :
    QJsonArray × MainWindow :=
  let r := call_signal_getters s st.2
  (st.1 ++ [QJsonValue.object (gen_session_channel r.1)], r.2)

/-- The function `MainWindow::gen_session_json` (mainwindow.cpp, lines 817-921)
once more, with every call it makes on the device agent, the session, the
signals, the trigger widget, the decoder store and the view written as a step
that hands the state on; the body itself calls no setter. -/
def gen_session_json_calls (w : MainWindow) (sessionVar : QJsonObject) : GenResult :=
  let sessionVar := QJsonObject.set sessionVar "Version" (QJsonValue.double BASE_SESSION_VERSION)
  let device := call_driver_name w
  let sessionVar := QJsonObject.set sessionVar "Device" (QJsonValue.string device.1)
  let mode := call_get_work_mode device.2
  let sessionVar := QJsonObject.set sessionVar "DeviceMode" (QJsonValue.double mode.1)
  let sessionVar :=
    QJsonObject.set sessionVar "Language" (QJsonValue.double mode.2.frameOptions.language)
  let gvar_opts := call_get_config_list mode.2
  match gvar_opts.1 with
  | none => { ret := false, sessionVar := sessionVar, window := gvar_opts.2 }
  | some options =>
    let opts := options.foldl gen_session_option_calls (sessionVar, gvar_opts.2)
    let sigs := call_get_signals opts.2
    let chans := sigs.1.foldl gen_session_channel_calls ([], sigs.2)
    let sessionVar := QJsonObject.set opts.1 "channel" (QJsonValue.array chans.1)
    let mode := call_get_work_mode chans.2
    let trig : QJsonObject × MainWindow :=
      if mode.1 = LOGIC then
        let t := call_trigger_get_session mode.2
        (QJsonObject.set sessionVar "trigger" (QJsonValue.object t.1), t.2)
      else (sessionVar, mode.2)
    let dec := call_json_decoders trig.2
    let sessionVar := QJsonObject.set trig.1 "decoder" (QJsonValue.array dec.1)
    let mode := call_get_work_mode dec.2
    let meas : QJsonObject × MainWindow :=
      if mode.1 = DSO then
        let m := call_measure_get_session mode.2
        (QJsonObject.set sessionVar "measure" (QJsonValue.array m.1), m.2)
      else (sessionVar, mode.2)
    { ret := true, sessionVar := meas.1, window := meas.2 }

/-- What a call of `on_store_session` leaves: the returned flag, the file
system and the window state. -/
structure StoreResult where
  ret : Bool
  fs : QFileSystem
  window : MainWindow

/-- The file system after the text of the file at `name` became `text`. -/
def QFileSystem.write (fs : QFileSystem) (name : String) (text : String) : QFileSystem :=
  { fs with data := fun p => if p = name then text else fs.data p }

/-- The function `MainWindow::on_store_session` (mainwindow.cpp, lines 923-942).
`toJson` is `QJsonDocument::toJson`, the JSON writer of Qt.  Opening the file
write-only empties it; the text goes to the file through the stream. -/
def on_store_session (toJson : QJsonObject → String) (fs : QFileSystem)
    (w : MainWindow) (name : String) : StoreResult :=
  if !fs.canWrite name then
    { ret := false, fs := fs, window := w }
  else
    let fs := fs.write name ""
    let sessionVar : QJsonObject := []
    let r := gen_session_json w sessionVar
    if !r.ret then
      { ret := false, fs := fs, window := r.window }
    else
      let sessionDoc := r.sessionVar
      { ret := true, fs := fs.write name (toJson sessionDoc), window := r.window }

/-- What a call of `genSessionData` leaves: the returned flag, the string passed
by reference, and the window state. -/
structure SessionDataResult where
  ret : Bool
  str : String
  window : MainWindow

/-- The function `MainWindow::genSessionData` (mainwindow.cpp, lines 944-953).
`str` is the string passed by reference; `toJson` is `QJsonDocument::toJson`. -/
def genSessionData (toJson : QJsonObject → String) (w : MainWindow) (str : String) :
    SessionDataResult :=
  let sessionVar : QJsonObject := []
  let r := gen_session_json w sessionVar
  if !r.ret then
    { ret := false, str := str, window := r.window }
  else
    let data : String := toJson r.sessionVar
    { ret := true, str := str ++ data, window := r.window }

/-! ## Saving the session on close and on loading a file -/

/-- The application data directory as `session_save` sees it. -/
structure AppDataLocation where
  /-- The result of `QStandardPaths::writableLocation`. -/
  path : String
  /-- Whether `dir.mkpath(path)` succeeds. -/
  mkpath : Bool
  /-- The result of `dir.absolutePath()` after `dir.cd(path)`. -/
  absolutePath : String

/-- The test `strncmp(text.toUtf8(), "virtual", 7)` read as a condition: `true`
(a result other than 0) exactly when the first seven characters of the text are
not `virtual`. -/
def strncmp_virtual (text : String) : Bool :=
  text.data.take 7 != "virtual".data

/-- What a call of `session_save` leaves: the file system, the window state,
the path handed to `on_store_session` when it was called, and the frame options
that `SaveFrame` stored when it was called. -/
structure SessionSaveResult where
  fs : QFileSystem
  window : MainWindow
  stored : Option String
  savedFrame : Option FrameOptions

/-- The function `MainWindow::session_save` (mainwindow.cpp, lines 455-490).
`saveState` is the result of `QMainWindow::saveState()`. -/
def session_save (toJson : QJsonObject → String) (dirs : AppDataLocation)
    (saveState : String) (fs : QFileSystem) (w : MainWindow) : SessionSaveResult :=
  if w.device_agent.have_instance = false then
    { fs := fs, window := w, stored := none, savedFrame := none }
  else
    let r : QFileSystem × MainWindow × Option String :=
      if dirs.mkpath then
        let driver_name := w.device_agent.name
        let mode_name := QString.numberInt w.device_agent.work_mode
        let lang_name := ".ses" ++ QString.numberInt w.frameOptions.language
        let file_name := dirs.absolutePath ++ "/" ++ driver_name ++ mode_name ++ lang_name ++ ".dsc"
        if strncmp_virtual driver_name && !file_name.isEmpty then
          let st := on_store_session toJson fs w file_name
          (st.fs, st.window, some file_name)
        else (fs, w, none)
      else (fs, w, none)
    let window : MainWindow :=
      { r.2.1 with frameOptions := { r.2.1.frameOptions with windowState := saveState } }
    { fs := r.1, window := window, stored := r.2.2, savedFrame := some window.frameOptions }

/-- A call that `closeEvent` or `on_load_file` makes, in the order made. -/
inductive Call where
  | session_save
  | accept
  | set_file (file_name : String)
  | show_error (error : String)
  | set_default_device
  deriving DecidableEq

/-- What an event handler leaves: the file system and the window state after
its `session_save`, and the calls it made in order. -/
structure HandlerResult where
  fs : QFileSystem
  window : MainWindow
  calls : List Call

/-- The function `MainWindow::closeEvent` (mainwindow.cpp, lines 492-497). -/
def closeEvent (toJson : QJsonObject → String) (dirs : AppDataLocation)
    (saveState : String) (fs : QFileSystem) (w : MainWindow) : HandlerResult :=
  let r := session_save toJson dirs saveState fs w
  { fs := r.fs, window := r.window, calls := [Call.session_save, Call.accept] }

/-- The function `MainWindow::on_load_file` (mainwindow.cpp, lines 352-365).
`set_file_throws` tells whether `_session->set_file` throws a `QString`; what
`set_file` and `set_default_device` do to the session is outside this file, so
the state given is the one `set_file` is called in. -/
def on_load_file (toJson : QJsonObject → String) (dirs : AppDataLocation)
    (saveState : String) (fs : QFileSystem) (w : MainWindow) (file_name : String)
    (set_file_throws : Bool) : HandlerResult :=
  let r : HandlerResult :=
    if strncmp_virtual w.device_agent.name then
      let sv := session_save toJson dirs saveState fs w
      { fs := sv.fs, window := sv.window, calls := [Call.session_save] }
    else
      { fs := fs, window := w, calls := [] }
  let calls := r.calls ++ [Call.set_file file_name]
  if set_file_throws then
    { r with calls := calls ++ [Call.show_error ("Failed to load " ++ file_name),
                                Call.set_default_device] }
  else
    { r with calls := calls }

/-! ## Sample states and documents -/

/-- A device agent of a logic analyser with one enabled probe and no session
options. -/
def sampleAgent : DeviceAgent :=
  { have_instance := true
    name := "DSLogic"
    driver_name := "DSLogic"
    work_mode := LOGIC
    config_list := some []
    config_info := fun k => { key := k, datatype := sr_datatype.SR_T_BOOL, name := "opt" }
    config := fun _ => none
    channels :=
      [{ index := 0, type := 10000, enabled := true, name := "0", vdiv := 0, coupling := 0,
         vfactor := 0, trig_value := 0, map_unit := "", map_min := 0, map_max := 0 }] }

/-- A logic signal on probe 0 with the given enabled flag and name. -/
def sampleSignal (enabled : Bool) (name : String) : Signal :=
  { index := 0, type := 10000, enabled := enabled, name := name,
    colour := { isValid := false, name := "" }, kind := SignalKind.logic { trig := 0 } }

/-- A window state on `sampleAgent` with one signal and one decoder. -/
def sampleWindow (enabled : Bool) (name : String) : MainWindow :=
  { device_agent := sampleAgent
    signals := [sampleSignal enabled name]
    trigger_session := []
    decoders := [QJsonValue.string "i2c"]
    measure_session := []
    frameOptions := { language := 25, style := "dark", windowState := "" }
    trigger_dock_visible := false
    dso_trigger_dock_visible := false
    protocol_dock_visible := false
    measure_dock_visible := false
    search_dock_visible := false }

/-- A session document of version 1 for the device of `sampleAgent`. -/
def oldVersionDoc : QJsonDocument :=
  QJsonDocument.object
    [("Version", QJsonValue.double 1), ("Device", QJsonValue.string "DSLogic"),
     ("DeviceMode", QJsonValue.double 0)]

/-- A session document of the current version written for another device. -/
def otherDeviceDoc : QJsonDocument :=
  QJsonDocument.object
    [("Version", QJsonValue.double 2), ("Device", QJsonValue.string "DSCope"),
     ("DeviceMode", QJsonValue.double 1)]

/-- A session document for the device of `sampleAgent` whose channel array is
empty and which has no decoder section. -/
def noChannelDoc : QJsonDocument :=
  QJsonDocument.object
    [("Version", QJsonValue.double 2), ("Device", QJsonValue.string "DSLogic"),
     ("DeviceMode", QJsonValue.double 0), ("channel", QJsonValue.array [])]

/-- Whether the channel array of a session object has a record with the given
index and type, the match the session format keys channels by. -/
def hasChannelRecord (sessionObj : QJsonObject) (index type : Int) : Bool :=
  (QJsonObject.get sessionObj "channel").toArray.any (fun value =>
    decide ((QJsonObject.get value.toObject "index").toDouble = index) &&
    decide ((QJsonObject.get value.toObject "type").toDouble = type))

/-- A JSON reader that takes the text of the empty object and finds every
other text malformed. -/
def emptyObjectReader (text : String) : QJsonDocument :=
  if text = "\x7b\x7d" then QJsonDocument.object [] else QJsonDocument.null

/-- A JSON writer stand-in that lists the keys of the object, for evaluating
`on_store_session` on a sample. -/
def keyListWriter (obj : QJsonObject) : String :=
  String.intercalate "," (obj.map Prod.fst)

/-- A file system with one file, `session.dsc`, readable and writable, holding
the given text. -/
def sampleFs (text : String) : QFileSystem :=
  { canRead := fun p => p = "session.dsc"
    canWrite := fun p => p = "session.dsc"
    data := fun p => if p = "session.dsc" then text else "" }

/-! ## What the session format says, for comparison with the code -/

/-- The entry of an option in the session document, by the datatype of its
descriptor: the number 1 or 0 for SR_T_BOOL, the decimal string of the value
for SR_T_UINT64 and SR_T_UINT8, a number for SR_T_FLOAT, a string for
SR_T_CHAR; no entry when the value is unavailable or the datatype is none of
these. -/
def spec_option_entry (datatype : sr_datatype) (value : Option GVariant) : Option QJsonValue :=
  match value, datatype with
  | none, _ => none
  | some gvar, sr_datatype.SR_T_BOOL =>
      some (QJsonValue.double (if g_variant_get_boolean gvar then 1 else 0))
  | some gvar, sr_datatype.SR_T_UINT64 =>
      some (QJsonValue.string (Nat.repr (g_variant_get_uint64 gvar)))
  | some gvar, sr_datatype.SR_T_UINT8 =>
      some (QJsonValue.string (Nat.repr (g_variant_get_byte gvar)))
  | some gvar, sr_datatype.SR_T_FLOAT => some (QJsonValue.double (g_variant_get_double gvar))
  | some gvar, sr_datatype.SR_T_CHAR => some (QJsonValue.string (g_variant_get_string gvar))
  | some _, sr_datatype.other _ => none

/-- Whether the option gets an entry in the session document: it has a value
and its datatype is one of the five that are written. -/
def optionWritten (dev : DeviceAgent) (opt : Int) : Bool :=
  (spec_option_entry (dev.config_info opt).datatype
    (dev.config (dev.config_info opt).key)).isSome

/-- The fields common to every channel record, following the words of the
specification: index, type, enabled flag, name, and the colour, which is the
colour of the signal when that is valid and the string "default" otherwise. -/
def spec_channel_fields (s : Signal) : List (String × QJsonValue) :=
  [("index", QJsonValue.double s.index), ("type", QJsonValue.double s.type),
   ("enabled", QJsonValue.bool s.enabled), ("name", QJsonValue.string s.name),
   ("colour", QJsonValue.string (if s.colour.isValid then s.colour.name else "default"))]

/-- The fields a channel record carries for the kind of its signal, following
the words of the specification. -/
def spec_kind_fields : SignalKind → List (String × QJsonValue)
  | SignalKind.logic l => [("strigger", QJsonValue.double l.trig)]
  | SignalKind.dso d =>
      [("vdiv", QJsonValue.double d.vDialValue), ("vfactor", QJsonValue.double d.factor),
       ("coupling", QJsonValue.double d.acCoupling), ("trigValue", QJsonValue.double d.trig_vrate),
       ("zeroPos", QJsonValue.double d.zero_ratio)]
  | SignalKind.analog a =>
      [("vdiv", QJsonValue.double a.vdiv), ("vfactor", QJsonValue.double a.factor),
       ("coupling", QJsonValue.double a.acCoupling), ("zeroPos", QJsonValue.double a.zero_ratio),
       ("mapUnit", QJsonValue.string a.mapUnit), ("mapMin", QJsonValue.double a.mapMin),
       ("mapMax", QJsonValue.double a.mapMax)]
  | SignalKind.plain => []

/-- The (index, type) pairs of the records of the channel array of a session
object, in array order. -/
def channelRecordKeys (sessionObj : QJsonObject) : List (Rat × Rat) :=
  (QJsonObject.get sessionObj "channel").toArray.map (fun value =>
    ((QJsonObject.get value.toObject "index").toDouble,
     (QJsonObject.get value.toObject "type").toDouble))

/-- The number a list of decimal digit characters denotes, continuing from the
number `acc` read so far. -/
def decimalValue (acc : Nat) (digits : List Char) : Nat :=
  digits.foldl (fun a c => 10 * a + (c.toNat - 48)) acc

/-! ## More sample states -/

/-- A device agent of an oscilloscope with seven session options: one of each
datatype the session code writes, one without a value and one of another
datatype. -/
def optionAgent : DeviceAgent :=
  { have_instance := true
    name := "DSCope"
    driver_name := "DSCope"
    work_mode := DSO
    config_list := some [1, 2, 3, 4, 5, 6, 7]
    config_info := fun k =>
      if k = 1 then { key := 1, datatype := sr_datatype.SR_T_BOOL, name := "Clock" }
      else if k = 2 then { key := 2, datatype := sr_datatype.SR_T_UINT64, name := "Sample rate" }
      else if k = 3 then { key := 3, datatype := sr_datatype.SR_T_UINT8, name := "Filter" }
      else if k = 4 then { key := 4, datatype := sr_datatype.SR_T_FLOAT, name := "Threshold" }
      else if k = 5 then { key := 5, datatype := sr_datatype.SR_T_CHAR, name := "Mode" }
      else if k = 6 then { key := 6, datatype := sr_datatype.SR_T_BOOL, name := "Stream" }
      else { key := k, datatype := sr_datatype.other 10005, name := "Period" }
    config := fun k =>
      if k = 1 then some (GVariant.boolean true)
      else if k = 2 then some (GVariant.uint64 18446744073709551615)
      else if k = 3 then some (GVariant.byte 200)
      else if k = 4 then some (GVariant.double 3)
      else if k = 5 then some (GVariant.string "Buffer")
      else if k = 6 then none
      else some GVariant.other
    channels := [] }

/-- An oscilloscope signal on probe 1 with a valid colour. -/
def sampleDsoSignal : Signal :=
  { index := 1, type := 10001, enabled := true, name := "CH1",
    colour := { isValid := true, name := "#ff0000" },
    kind := SignalKind.dso { vDialValue := 500, factor := 10, acCoupling := 1,
                             trig_vrate := 1 / 2, zero_ratio := 1 / 4, vDialActive := false } }

/-- An analog signal on probe 0 without a valid colour. -/
def sampleAnalogSignal : Signal :=
  { index := 0, type := 10002, enabled := false, name := "A0",
    colour := { isValid := false, name := "" },
    kind := SignalKind.analog { vdiv := 1000, factor := 1, acCoupling := 0, zero_ratio := 1 / 2,
                                mapUnit := "V", mapMin := -5, mapMax := 5 } }

/-- A window state on `optionAgent` with two signals. -/
def optionWindow : MainWindow :=
  { device_agent := optionAgent
    signals := [sampleDsoSignal, sampleAnalogSignal]
    trigger_session := []
    decoders := []
    measure_session := [QJsonValue.string "freq"]
    frameOptions := { language := 31, style := "dark", windowState := "" }
    trigger_dock_visible := false
    dso_trigger_dock_visible := false
    protocol_dock_visible := false
    measure_dock_visible := false
    search_dock_visible := false }

/-- A window state whose device is named `virtual-demo`. -/
def virtualWindow : MainWindow :=
  { sampleWindow true "0" with
    device_agent := { sampleAgent with name := "virtual-demo", driver_name := "virtual-demo" } }

/-- An application data directory that can be made. -/
def sampleDirs : AppDataLocation :=
  { path := "/home/u/.local/share/DSView", mkpath := true,
    absolutePath := "/home/u/.local/share/DSView" }

/-- A device agent of an oscilloscope whose session options are named like keys
of the document or like one another: `channel`, two named `Rate`, `Language`
(without a value), `trigger` and `Version`. -/
def collidingAgent : DeviceAgent :=
  { have_instance := true
    name := "DSCope"
    driver_name := "DSCope"
    work_mode := DSO
    config_list := some [1, 2, 3, 4, 5, 6]
    config_info := fun k =>
      if k = 1 then { key := 1, datatype := sr_datatype.SR_T_CHAR, name := "channel" }
      else if k = 2 then { key := 2, datatype := sr_datatype.SR_T_CHAR, name := "Rate" }
      else if k = 3 then { key := 3, datatype := sr_datatype.SR_T_CHAR, name := "Rate" }
      else if k = 4 then { key := 4, datatype := sr_datatype.SR_T_BOOL, name := "Language" }
      else if k = 5 then { key := 5, datatype := sr_datatype.SR_T_CHAR, name := "trigger" }
      else { key := k, datatype := sr_datatype.SR_T_UINT64, name := "Version" }
    config := fun k =>
      if k = 1 then some (GVariant.string "x")
      else if k = 2 then some (GVariant.string "a")
      else if k = 3 then some (GVariant.string "b")
      else if k = 4 then none
      else if k = 5 then some (GVariant.string "t")
      else some (GVariant.uint64 7)
    channels := [] }

/-- A window state on `collidingAgent`. -/
def collidingWindow : MainWindow :=
  { optionWindow with device_agent := collidingAgent }

/-- A window state whose device is named `Demo Device` by `name()` and
`virtual-demo` by `driver_name()`. -/
def namedWindow : MainWindow :=
  { sampleWindow true "0" with
    device_agent := { sampleAgent with name := "Demo Device", driver_name := "virtual-demo" } }

/-- A file system in which every path opens for reading and for writing and
holds the given text. -/
def openFs (text : String) : QFileSystem :=
  { canRead := fun _ => true, canWrite := fun _ => true, data := fun _ => text }

/-- A session document whose channel array holds two records for the probe with
index 0 and type 10000, the first named `first`, the second named `last`. -/
def duplicateChannelDoc : QJsonDocument :=
  QJsonDocument.object
    [("Version", QJsonValue.double 2), ("Device", QJsonValue.string "DSLogic"),
     ("DeviceMode", QJsonValue.double 0),
     ("channel", QJsonValue.array
        [QJsonValue.object [("index", QJsonValue.double 0), ("type", QJsonValue.double 10000),
                            ("enabled", QJsonValue.bool false), ("name", QJsonValue.string "first")],
         QJsonValue.object [("index", QJsonValue.double 0), ("type", QJsonValue.double 10000),
                            ("enabled", QJsonValue.bool false), ("name", QJsonValue.string "last")]])]

/-! ## The error dialog, the trigger docks, the keys and the language -/

/-- The loop `for (int i = 0; i < 16; i++)` of `on_session_error` for a test
data error (mainwindow.cpp, lines 409-417), with `n` passes left at the counter
`i`: `error_pattern & 0x01` is the remainder by 2 and `error_pattern >>= 1` the
quotient by 2. -/
def ch_status_loop : Nat → Nat → String → Nat → String
  | 0, _, ch_status, _ => ch_status
  | n + 1, i, ch_status, error_pattern =>
      let ch_status := if error_pattern % 2 = 1 then ch_status ++ "X " else ch_status ++ "  "
      let ch_status := ch_status ++ (if i > 9 then " " else "")
      ch_status_loop n (i + 1) ch_status (error_pattern / 2)

/-- The characters that `ch_status_loop` appends, as a list. -/
def ch_status_cells : Nat → Nat → Nat → List Char
  | 0, _, _ => []
  | n + 1, i, error_pattern =>
      [if error_pattern % 2 = 1 then 'X' else ' ', ' '] ++ (if i > 9 then [' '] else [])
        ++ ch_status_cells n (i + 1) (error_pattern / 2)

/-- The channel status line `ch_status` that `MainWindow::on_session_error`
builds for a test data error from the `uint64_t` error pattern of the session
(mainwindow.cpp, lines 388 and 407-417). -/
def on_session_error_ch_status (error_pattern : Nat) : String :=
  ch_status_loop 16 0 "" (error_pattern % 2 ^ 64)

/-- The header line of the channel status (mainwindow.cpp, line 419). -/
def ch_status_header : String := "0 1 2 3 4 5 6 7 8 9 10 11 12 13 14 15"

/-- The column at which the label `i` starts in the header line. -/
def labelColumn (i : Nat) : Nat := if i ≤ 9 then 2 * i else 3 * i - 10

/-- The channel status line following the words of the claim: 38 characters,
an `X` at the column of the label `i` when bit `i` of the pattern is set, a
space at every other place. -/
def spec_ch_status (error_pattern : Nat) : List Char :=
  (List.range 38).map (fun j =>
    if (List.range 16).any (fun i => j == labelColumn i && error_pattern / 2 ^ i % 2 == 1)
    then 'X' else ' ')

/-- The function `MainWindow::on_trigger` (mainwindow.cpp, lines 505-520).  The
calls `init()` of the trigger widgets and `update_trig_btn` of the toolbar act
on widgets outside this state. -/
def on_trigger (w : MainWindow) (visible : Bool) : MainWindow :=
  if w.device_agent.work_mode ≠ DSO then
    { w with trigger_dock_visible := visible, dso_trigger_dock_visible := false }
  else
    { w with trigger_dock_visible := false, dso_trigger_dock_visible := visible }

/-- The function `MainWindow::on_protocol` (mainwindow.cpp, lines 499-503). -/
def on_protocol (w : MainWindow) (visible : Bool) : MainWindow :=
  { w with protocol_dock_visible := visible }

/-- The function `MainWindow::on_measure` (mainwindow.cpp, lines 522-525). -/
def on_measure (w : MainWindow) (visible : Bool) : MainWindow :=
  { w with measure_dock_visible := visible }

/-- The function `MainWindow::on_search` (mainwindow.cpp, lines 527-531). -/
def on_search (w : MainWindow) (visible : Bool) : MainWindow :=
  { w with search_dock_visible := visible }

/-- The keys that `eventFilter` tells apart; every other key is `other`. -/
inductive Key where
  | Key_S | Key_I | Key_T | Key_D | Key_M | Key_R | Key_O
  | Key_PageUp | Key_PageDown | Key_Left | Key_Right
  | Key_0 | Key_1 | Key_Up | Key_Down
  | other
  deriving DecidableEq

/-- An event as `eventFilter` sees it: a key press, or an event of another type. -/
inductive QEvent where
  | KeyPress (key : Key)
  | other
  deriving DecidableEq

/-- The body of the loops of the cases `Key_0` and `Key_1` of `eventFilter`
(mainwindow.cpp, lines 1050-1060 and 1065-1075) for one signal, `index` being
0 or 1. -/
def set_vDialActive_key (index : Int) (s : Signal) : Signal :=
  match s.kind with
  | SignalKind.dso dsoSig =>
      if s.index = index then
        { s with kind := SignalKind.dso { dsoSig with vDialActive := !dsoSig.vDialActive } }
      else
        { s with kind := SignalKind.dso { dsoSig with vDialActive := false } }
  | _ => s

/-- The loops of the cases `Key_Up` and `Key_Down` of `eventFilter`
(mainwindow.cpp, lines 1080-1092 and 1095-1107): `go` (`go_vDialNext(true)` or
`go_vDialPre(true)`) is applied to the first oscilloscope signal whose dial is
active, and the loop stops there. -/
def go_vDial_first (go : DsoSignal → DsoSignal) : List Signal → List Signal
  | [] => []
  | s :: rest =>
      match s.kind with
      | SignalKind.dso dsoSig =>
          if dsoSig.vDialActive then { s with kind := SignalKind.dso (go dsoSig) } :: rest
          else s :: go_vDial_first go rest
      | _ => s :: go_vDial_first go rest

/-- The function `MainWindow::eventFilter` (mainwindow.cpp, lines 992-1115): the
returned flag and the state left.  `go_vDialNext` and `go_vDialPre` are the
dial steps of an oscilloscope signal.  The cases that only call into the
session, the sampling bar or the view (capture, device options, scrolling and
zooming, the default key handling) act outside this state. -/
def eventFilter (go_vDialNext go_vDialPre : DsoSignal → DsoSignal) (w : MainWindow)
    (event : QEvent) : Bool × MainWindow :=
  match event with
  | QEvent.KeyPress key =>
      let w :=
        match key with
        | Key.Key_T =>
            if w.device_agent.work_mode = DSO then on_trigger w (!w.dso_trigger_dock_visible)
            else on_trigger w (!w.trigger_dock_visible)
        | Key.Key_D => on_protocol w (!w.protocol_dock_visible)
        | Key.Key_M => on_measure w (!w.measure_dock_visible)
        | Key.Key_R => on_search w (!w.search_dock_visible)
        | Key.Key_0 => { w with signals := w.signals.map (set_vDialActive_key 0) }
        | Key.Key_1 => { w with signals := w.signals.map (set_vDialActive_key 1) }
        | Key.Key_Up => { w with signals := go_vDial_first go_vDialNext w.signals }
        | Key.Key_Down => { w with signals := go_vDial_first go_vDialPre w.signals }
        | _ => w
      (true, w)
  | QEvent.other => (false, w)

/-- Modelled from the spec: the language code `LAN_CN` (a constant declared
outside this file); only that it differs from `LAN_EN` and from 0 matters. -/
def LAN_CN : Int := 25

/-- Modelled from the spec: the language code `LAN_EN` (a constant declared
outside this file). -/
def LAN_EN : Int := 31

/-- What a call of `switchLanguage` leaves: the window state, the value handed
to `set_config` for SR_CONF_LANGUAGE when it was called, the frame options that
`SaveFrame` stored when it was called, whether the translators were installed
(`some true`), removed (`some false`) or left alone, whether `retranslateUi` ran
and whether the code was reported as unknown. -/
structure SwitchLanguageResult where
  window : MainWindow
  set_config : Option Int
  savedFrame : Option FrameOptions
  translators : Option Bool
  retranslated : Bool
  unknown_reported : Bool

/-- The function `MainWindow::switchLanguage` (mainwindow.cpp, lines 1117-1150).
`g_variant_new_int16` keeps the low 16 bits of the code as a signed number. -/
def switchLanguage (w : MainWindow) (language : Int) : SwitchLanguageResult :=
  if language = 0 then
    { window := w, set_config := none, savedFrame := none, translators := none,
      retranslated := false, unknown_reported := false }
  else
    let set_config : Option Int :=
      if w.device_agent.have_instance then some ((language + 2 ^ 15) % 2 ^ 16 - 2 ^ 15)
      else none
    let saved : MainWindow × Option FrameOptions :=
      if w.frameOptions.language ≠ language ∧ language > 0 then
        let app := { w.frameOptions with language := language }
        ({ w with frameOptions := app }, some app)
      else (w, none)
    if language = LAN_CN then
      { window := saved.1, set_config := set_config, savedFrame := saved.2,
        translators := some true, retranslated := true, unknown_reported := false }
    else if language = LAN_EN then
      { window := saved.1, set_config := set_config, savedFrame := saved.2,
        translators := some false, retranslated := true, unknown_reported := false }
    else
      { window := saved.1, set_config := set_config, savedFrame := saved.2,
        translators := none, retranslated := false, unknown_reported := true }

/-- A window state on a device that has no session option list. -/
def noSessionWindow : MainWindow :=
  { sampleWindow true "0" with
    device_agent := { sampleAgent with config_list := none } }

/-- A window state with two oscilloscope signals, on probes 0 and 1, the dial
of the second active, and a logic signal. -/
def dialWindow : MainWindow :=
  { optionWindow with
    signals :=
      [{ sampleDsoSignal with index := 0, name := "CH0" },
       { sampleDsoSignal with
         kind := SignalKind.dso { vDialValue := 500, factor := 10, acCoupling := 1,
                                  trig_vrate := 1 / 2, zero_ratio := 1 / 4,
                                  vDialActive := true } },
       sampleSignal true "D0"] }

end DSView

namespace DSView

/-! ## Properties of loading -/

/-- Whatever the document and the flags, `load_session_json` returns `true` and
hands the window state back as it was. -/
theorem load_session_json_eq (w : MainWindow) (json : QJsonDocument)
    (file_dev bDecoder : Bool) :
    load_session_json w json file_dev bDecoder = (true, w) := rfl

/-- On a path that opens for reading, `on_load_session` returns what
`load_session_json` returns on the parsed text. -/
theorem on_load_session_readable (fromJson : String → QJsonDocument) (fs : QFileSystem)
    (w : MainWindow) (name : String) (h : fs.canRead name = true) :
    on_load_session fromJson fs w name =
      load_session_json w (fromJson (fs.data name)) false true := by
  simp [on_load_session, h]

/-- C1, counterexample: a document of version 1, below BASE_SESSION_VERSION, is
not rejected: `load_session_json` returns `true` on it. -/
theorem load_session_json_old_version_accepted :
    (QJsonObject.get oldVersionDoc.toObject "Version").toInt < BASE_SESSION_VERSION ∧
    (load_session_json (sampleWindow true "0") oldVersionDoc false true).1 = true := by
  constructor <;> decide

/-- C1, as amended: for every session document whose "Version" field is below
BASE_SESSION_VERSION, `load_session_json` leaves the whole live state unchanged,
and it returns `true`: the document is not rejected. -/
theorem load_session_json_version_below (w : MainWindow) (json : QJsonDocument)
    (file_dev bDecoder : Bool)
    (h : (QJsonObject.get json.toObject "Version").toInt < BASE_SESSION_VERSION) :
    (load_session_json w json file_dev bDecoder).2 = w ∧
    (load_session_json w json file_dev bDecoder).1 = true :=
  ⟨rfl, rfl⟩

/-- C1, witness: the amended statement at the version 1 document. -/
theorem load_session_json_version_below_witness :
    (QJsonObject.get oldVersionDoc.toObject "Version").toInt < BASE_SESSION_VERSION ∧
    (load_session_json (sampleWindow true "0") oldVersionDoc false true).2
      = sampleWindow true "0" ∧
    (load_session_json (sampleWindow true "0") oldVersionDoc false true).1 = true :=
  ⟨by decide,
   load_session_json_version_below (sampleWindow true "0") oldVersionDoc false true (by decide)⟩

/-- C2, counterexample: a document written for the driver "DSCope" in mode 1 is
not rejected on the device "DSLogic" in mode 0: `load_session_json` returns
`true` on it. -/
theorem load_session_json_other_device_accepted :
    (QJsonObject.get otherDeviceDoc.toObject "Device").toString
      ≠ (sampleWindow true "0").device_agent.driver_name ∧
    (QJsonObject.get otherDeviceDoc.toObject "DeviceMode").toDouble
      ≠ (sampleWindow true "0").device_agent.work_mode ∧
    (load_session_json (sampleWindow true "0") otherDeviceDoc false true).1 = true := by
  refine ⟨by decide, by decide, by decide⟩

/-- C2, as amended: for every session document whose "Device" or "DeviceMode"
differs from the driver name or the work mode of the active device,
`load_session_json` leaves the whole live state unchanged, and it returns
`true`: the document is not rejected. -/
theorem load_session_json_device_mismatch (w : MainWindow) (json : QJsonDocument)
    (file_dev bDecoder : Bool)
    (h : (QJsonObject.get json.toObject "Device").toString ≠ w.device_agent.driver_name ∨
         (QJsonObject.get json.toObject "DeviceMode").toDouble ≠ w.device_agent.work_mode) :
    (load_session_json w json file_dev bDecoder).2 = w ∧
    (load_session_json w json file_dev bDecoder).1 = true :=
  ⟨rfl, rfl⟩

/-- C2, witness: the amended statement at the document of the other device. -/
theorem load_session_json_device_mismatch_witness :
    (QJsonObject.get otherDeviceDoc.toObject "Device").toString
      ≠ (sampleWindow true "0").device_agent.driver_name ∧
    (load_session_json (sampleWindow true "0") otherDeviceDoc false true).2
      = sampleWindow true "0" ∧
    (load_session_json (sampleWindow true "0") otherDeviceDoc false true).1 = true :=
  ⟨by decide,
   load_session_json_device_mismatch (sampleWindow true "0") otherDeviceDoc false true
     (Or.inl (by decide))⟩

/-- C3, counterexample: the session of a state whose signal is enabled is
written with success, and loaded in a context with the same device and mode
whose signal is disabled and named otherwise; the signal stays disabled and
keeps its name, so the enabled flags and names are not those of the saved
state. -/
theorem gen_load_round_trip_fails :
    (gen_session_json (sampleWindow true "CLK") []).ret = true ∧
    (sampleWindow false "0").device_agent.driver_name
      = (sampleWindow true "CLK").device_agent.driver_name ∧
    (sampleWindow false "0").device_agent.work_mode
      = (sampleWindow true "CLK").device_agent.work_mode ∧
    (load_session_json (sampleWindow false "0")
        (QJsonDocument.object (gen_session_json (sampleWindow true "CLK") []).sessionVar)
        false true).2.signals.map (fun s => (s.enabled, s.name))
      ≠ (sampleWindow true "CLK").signals.map (fun s => (s.enabled, s.name)) := by
  refine ⟨by decide, by decide, by decide, by decide⟩

/-- C3, as amended: for every live state on which `gen_session_json` succeeds,
applying `load_session_json` to the produced document in a context with the
same device and mode returns `true` and leaves the channels of the context
(signals and device probes) as they were; the channels of the result are those
of the saved state when the context already had them, as when the document is
loaded into the saved state itself. -/
theorem gen_load_round_trip (w c : MainWindow) (sessionVar : QJsonObject)
    (file_dev bDecoder : Bool)
    (hgen : (gen_session_json w sessionVar).ret = true)
    (hdev : c.device_agent.driver_name = w.device_agent.driver_name)
    (hmode : c.device_agent.work_mode = w.device_agent.work_mode) :
    (load_session_json c (QJsonDocument.object (gen_session_json w sessionVar).sessionVar)
        file_dev bDecoder).1 = true ∧
    (load_session_json c (QJsonDocument.object (gen_session_json w sessionVar).sessionVar)
        file_dev bDecoder).2.signals = c.signals ∧
    (load_session_json c (QJsonDocument.object (gen_session_json w sessionVar).sessionVar)
        file_dev bDecoder).2.device_agent.channels = c.device_agent.channels ∧
    (c.signals = w.signals →
      (load_session_json c (QJsonDocument.object (gen_session_json w sessionVar).sessionVar)
        file_dev bDecoder).2.signals = w.signals) :=
  ⟨rfl, rfl, rfl, fun hc => hc⟩

/-- C3, witness: the amended statement for the state `sampleWindow true "CLK"`
loaded into itself. -/
theorem gen_load_round_trip_witness :
    (gen_session_json (sampleWindow true "CLK") []).ret = true ∧
    (load_session_json (sampleWindow true "CLK")
        (QJsonDocument.object (gen_session_json (sampleWindow true "CLK") []).sessionVar)
        false true).2.signals = (sampleWindow true "CLK").signals :=
  ⟨by decide,
   (gen_load_round_trip (sampleWindow true "CLK") (sampleWindow true "CLK") [] false true
      (by decide) rfl rfl).2.2.2 rfl⟩

/-- C8, counterexample: on the non-file-backed sample device, the document has
an empty channel array, so the one live probe (and the one signal) has no
record with its index and type, and it is still enabled after
`load_session_json`. -/
theorem load_session_json_unmatched_stays_enabled :
    (load_session_json (sampleWindow true "0") noChannelDoc false true).2.device_agent.channels.map
        (fun probe => (hasChannelRecord noChannelDoc.toObject probe.index probe.type,
          probe.enabled)) = [(false, true)] ∧
    (load_session_json (sampleWindow true "0") noChannelDoc false true).2.signals.map
        (fun s => (hasChannelRecord noChannelDoc.toObject s.index s.type, s.enabled))
      = [(false, true)] := by
  constructor <;> decide

/-- C8, as amended: after `load_session_json` on a non-file-backed device, every
live channel (device probe and signal) keeps the enabled flag and the name it
had, whether or not the "channel" array of the document has a record with the
same (index, type). -/
theorem load_session_json_channels_kept (w : MainWindow) (json : QJsonDocument)
    (bDecoder : Bool) :
    (load_session_json w json false bDecoder).2.device_agent.channels
      = w.device_agent.channels ∧
    (load_session_json w json false bDecoder).2.signals = w.signals :=
  ⟨rfl, rfl⟩

/-- C9: for every session document that has no "decoder" key,
`load_session_json` leaves the decoder configuration as it was. -/
theorem load_session_json_no_decoder (w : MainWindow) (json : QJsonDocument)
    (file_dev bDecoder : Bool)
    (h : QJsonObject.contains json.toObject "decoder" = false) :
    (load_session_json w json file_dev bDecoder).2.decoders = w.decoders :=
  rfl

/-- C9, witness: the document without a decoder section, loaded into a state
with one decoder. -/
theorem load_session_json_no_decoder_witness :
    QJsonObject.contains noChannelDoc.toObject "decoder" = false ∧
    (load_session_json (sampleWindow true "0") noChannelDoc false true).2.decoders
      = [QJsonValue.string "i2c"] :=
  ⟨by decide,
   load_session_json_no_decoder (sampleWindow true "0") noChannelDoc false true (by decide)⟩

/-! ## Properties of writing -/

/-- C4: `gen_session_json` returns `false` exactly when the session option list
of the device is absent (`get_config_list` returns `NULL`), and `true` in every
other case. -/
theorem gen_session_json_ret (w : MainWindow) (sessionVar : QJsonObject) :
    ((gen_session_json w sessionVar).ret = false ↔ w.device_agent.config_list = none) ∧
    ((gen_session_json w sessionVar).ret = true ↔ w.device_agent.config_list ≠ none) := by
  unfold gen_session_json
  cases hlist : w.device_agent.config_list <;> simp

/-- The window state is a field that `gen_session_json` hands on: both of its
results carry the state it was called in. -/
theorem gen_session_json_window (w : MainWindow) (sessionVar : QJsonObject) :
    (gen_session_json w sessionVar).window = w := by
  unfold gen_session_json
  cases hlist : w.device_agent.config_list <;> rfl

/-- The option loop with its calls as steps on the state writes what
`gen_session_option` writes and hands the state on. -/
theorem foldl_option_calls (w : MainWindow) :
    ∀ (options : List Int) (sessionVar : QJsonObject),
      options.foldl gen_session_option_calls (sessionVar, w)
        = (options.foldl (gen_session_option w.device_agent) sessionVar, w) := by
  intro options
  induction options with
  | nil => intro sessionVar; rfl
  | cons x xs ih =>
    intro sessionVar
    have hstep : gen_session_option_calls (sessionVar, w) x
        = (gen_session_option w.device_agent sessionVar x, w) := by
      unfold gen_session_option_calls gen_session_option call_get_config_info call_get_config
      dsimp only
      generalize w.device_agent.config (w.device_agent.config_info x).key = value
      generalize (w.device_agent.config_info x).datatype = datatype
      cases value <;> cases datatype <;> rfl
    simp only [List.foldl_cons, hstep, ih]

/-- The signal loop with its calls as steps on the state appends one record for
each signal, in order, and hands the state on. -/
theorem foldl_channel_calls (w : MainWindow) :
    ∀ (signals : List Signal) (channelVar : QJsonArray),
      signals.foldl gen_session_channel_calls (channelVar, w)
        = (channelVar ++ signals.map (fun s => QJsonValue.object (gen_session_channel s)), w) := by
  intro signals
  induction signals with
  | nil => intro channelVar; simp
  | cons s rest ih =>
    intro channelVar
    simp only [List.foldl_cons, gen_session_channel_calls, call_signal_getters, ih,
      List.map_cons, List.append_assoc, List.singleton_append]

/-- C5: whether it succeeds or fails, `gen_session_json`, with every call it
makes written as a step on the state, leaves the window state (device
configuration, signal list, trigger, decoder and measurement state, application
configuration) as it was; only the object passed by reference is written, and
what is written and returned is what `gen_session_json` gives. -/
theorem gen_session_json_calls_window (w : MainWindow) (sessionVar : QJsonObject) :
    (gen_session_json_calls w sessionVar).window = w ∧
    (gen_session_json_calls w sessionVar).ret = (gen_session_json w sessionVar).ret ∧
    (gen_session_json_calls w sessionVar).sessionVar
      = (gen_session_json w sessionVar).sessionVar := by
  unfold gen_session_json_calls gen_session_json
  simp only [call_driver_name, call_get_work_mode, call_get_config_list, call_get_signals,
    call_trigger_get_session, call_json_decoders, call_measure_get_session]
  cases hlist : w.device_agent.config_list with
  | none => exact ⟨rfl, rfl, rfl⟩
  | some options =>
    simp only [foldl_option_calls, foldl_channel_calls, List.nil_append]
    split_ifs <;> exact ⟨rfl, trivial, rfl⟩

/-! ## Properties of loading from a file -/

/-- C6: for every path that cannot be opened for reading, `on_load_session`
returns `false` and leaves the whole live state unchanged. -/
theorem on_load_session_unreadable (fromJson : String → QJsonDocument) (fs : QFileSystem)
    (w : MainWindow) (name : String) (h : fs.canRead name = false) :
    on_load_session fromJson fs w name = (false, w) := by
  simp [on_load_session, h]

/-- C6, witness: the path `missing.dsc` of the sample file system. -/
theorem on_load_session_unreadable_witness :
    (sampleFs "").canRead "missing.dsc" = false ∧
    on_load_session emptyObjectReader (sampleFs "") (sampleWindow true "0") "missing.dsc"
      = (false, sampleWindow true "0") :=
  ⟨by decide,
   on_load_session_unreadable emptyObjectReader (sampleFs "") (sampleWindow true "0")
     "missing.dsc" (by decide)⟩

/-- C7, counterexample: the readable file `session.dsc` holds a lone opening
brace, which the reader finds malformed (it returns the null document), and
`on_load_session` returns `true`, while it returns `false` on the unreadable
`missing.dsc`. -/
theorem on_load_session_malformed_accepted :
    (sampleFs "\x7b").canRead "session.dsc" = true ∧
    (emptyObjectReader ((sampleFs "\x7b").data "session.dsc")).isNull = true ∧
    (on_load_session emptyObjectReader (sampleFs "\x7b") (sampleWindow true "0")
      "session.dsc").1 = true ∧
    (on_load_session emptyObjectReader (sampleFs "\x7b") (sampleWindow true "0")
      "missing.dsc").1 = false := by
  refine ⟨by decide, by decide, by decide, by decide⟩

/-- C7, as amended: for every readable file, also one whose content is not a
valid JSON document (the reader returns the null document),
`on_load_session` returns `true` and leaves the live state unchanged; it does
not report the failure that an unreadable file gives. -/
theorem on_load_session_malformed (fromJson : String → QJsonDocument) (fs : QFileSystem)
    (w : MainWindow) (name : String) (hread : fs.canRead name = true)
    (hbad : (fromJson (fs.data name)).isNull = true) :
    on_load_session fromJson fs w name = (true, w) := by
  simp [on_load_session, hread, load_session_json]

/-- C7, witness: the file holding a lone opening brace. -/
theorem on_load_session_malformed_witness :
    (sampleFs "\x7b").canRead "session.dsc" = true ∧
    on_load_session emptyObjectReader (sampleFs "\x7b") (sampleWindow true "0") "session.dsc"
      = (true, sampleWindow true "0") :=
  ⟨by decide,
   on_load_session_malformed emptyObjectReader (sampleFs "\x7b") (sampleWindow true "0")
     "session.dsc" (by decide) (by decide)⟩

/-! ## Properties of storing to a file -/

/-- On the sample state the store succeeds and the file holds what the writer
gives for the generated object; on a path that does not open it fails and the
file system is as before. -/
theorem on_store_session_sample :
    (on_store_session keyListWriter (sampleFs "old") (sampleWindow true "0") "session.dsc").ret
      = true ∧
    (on_store_session keyListWriter (sampleFs "old") (sampleWindow true "0")
        "session.dsc").fs.data "session.dsc"
      = "Version,Device,DeviceMode,Language,channel,trigger,decoder" ∧
    (on_store_session keyListWriter (sampleFs "old") (sampleWindow true "0") "other.dsc").ret
      = false ∧
    (on_store_session keyListWriter (sampleFs "old") (sampleWindow true "0")
        "other.dsc").fs.data "session.dsc" = "old" := by
  refine ⟨by decide, by decide, by decide, by decide⟩

/-- C10: `on_store_session` returns `true` exactly when the file opens for
writing and `gen_session_json` succeeds on a fresh object, and the file then
holds the JSON text of the generated session object; it returns `false` when
the file does not open and when serialization fails. -/
theorem on_store_session_ret (toJson : QJsonObject → String) (fs : QFileSystem)
    (w : MainWindow) (name : String) :
    ((on_store_session toJson fs w name).ret = true ↔
      (fs.canWrite name = true ∧ (gen_session_json w []).ret = true)) ∧
    ((on_store_session toJson fs w name).ret = true →
      (on_store_session toJson fs w name).fs.data name
        = toJson (gen_session_json w []).sessionVar) ∧
    (fs.canWrite name = false → (on_store_session toJson fs w name).ret = false) ∧
    ((gen_session_json w []).ret = false → (on_store_session toJson fs w name).ret = false) := by
  unfold on_store_session
  cases hopen : fs.canWrite name <;> cases hgen : (gen_session_json w []).ret <;>
    simp [hgen, QFileSystem.write]

end DSView

namespace DSView

/-! ## Reading back what was written to a JSON object -/

/-- Reading the key just assigned gives the value assigned. -/
theorem get_set_self (o : QJsonObject) (key : String) (v : QJsonValue) :
    QJsonObject.get (QJsonObject.set o key v) key = v := by
  induction o with
  | nil => simp [QJsonObject.set, QJsonObject.get]
  | cons p rest ih =>
    obtain ⟨k, x⟩ := p
    by_cases hk : k = key
    · simp [QJsonObject.set, QJsonObject.get, hk]
    · simp [QJsonObject.set, QJsonObject.get, hk, ih]

/-- Reading another key than the one assigned gives what it gave before. -/
theorem get_set_of_ne (o : QJsonObject) (key k : String) (v : QJsonValue) (h : key ≠ k) :
    QJsonObject.get (QJsonObject.set o key v) k = QJsonObject.get o k := by
  induction o with
  | nil => simp [QJsonObject.set, QJsonObject.get, h]
  | cons p rest ih =>
    obtain ⟨k0, x⟩ := p
    by_cases hk : k0 = key
    · subst hk
      simp [QJsonObject.set, QJsonObject.get, h]
    · by_cases hk2 : k0 = k
      · subst hk2
        simp [QJsonObject.set, QJsonObject.get, hk]
      · simp [QJsonObject.set, QJsonObject.get, hk, hk2, ih]

/-- The object contains the key just assigned. -/
theorem contains_set_self (o : QJsonObject) (key : String) (v : QJsonValue) :
    QJsonObject.contains (QJsonObject.set o key v) key = true := by
  induction o with
  | nil => simp [QJsonObject.set, QJsonObject.contains]
  | cons p rest ih =>
    obtain ⟨k, x⟩ := p
    by_cases hk : k = key
    · simp [QJsonObject.set, QJsonObject.contains, hk]
    · simp [QJsonObject.set, QJsonObject.contains, hk, ih]

/-- An assignment does not change whether the object contains another key. -/
theorem contains_set_of_ne (o : QJsonObject) (key k : String) (v : QJsonValue) (h : key ≠ k) :
    QJsonObject.contains (QJsonObject.set o key v) k = QJsonObject.contains o k := by
  induction o with
  | nil => simp [QJsonObject.set, QJsonObject.contains, h]
  | cons p rest ih =>
    obtain ⟨k0, x⟩ := p
    by_cases hk : k0 = key
    · subst hk
      simp [QJsonObject.set, QJsonObject.contains, h]
    · by_cases hk2 : k0 = k
      · subst hk2
        simp [QJsonObject.set, QJsonObject.contains, hk]
      · simp [QJsonObject.set, QJsonObject.contains, hk, hk2, ih]

/-! ## The device option loop -/

/-- One pass of the option loop writes the entry the session format gives the
option, under the name of the option, and nothing when there is no entry. -/
theorem gen_session_option_eq (dev : DeviceAgent) (sessionVar : QJsonObject) (opt : Int) :
    gen_session_option dev sessionVar opt =
      match spec_option_entry (dev.config_info opt).datatype
          (dev.config (dev.config_info opt).key) with
      | none => sessionVar
      | some v => QJsonObject.set sessionVar (dev.config_info opt).name v := by
  unfold gen_session_option spec_option_entry
  dsimp only
  generalize dev.config (dev.config_info opt).key = value
  generalize (dev.config_info opt).datatype = datatype
  cases value <;> cases datatype <;> rfl

/-- The option loop leaves a key as it was when no option that has an entry is
named like it. -/
theorem foldl_option_untouched (dev : DeviceAgent) (k : String) :
    ∀ (options : List Int) (sessionVar : QJsonObject),
      (∀ o ∈ options, (dev.config_info o).name = k →
        spec_option_entry (dev.config_info o).datatype (dev.config (dev.config_info o).key)
          = none) →
      QJsonObject.get (options.foldl (gen_session_option dev) sessionVar) k
        = QJsonObject.get sessionVar k ∧
      QJsonObject.contains (options.foldl (gen_session_option dev) sessionVar) k
        = QJsonObject.contains sessionVar k := by
  intro options
  induction options with
  | nil => intro sessionVar _; exact ⟨rfl, rfl⟩
  | cons x xs ih =>
    intro sessionVar h
    have hx := h x (List.mem_cons_self x xs)
    have hrest := ih (gen_session_option dev sessionVar x)
      (fun o ho => h o (List.mem_cons_of_mem x ho))
    simp only [List.foldl_cons]
    rw [hrest.1, hrest.2, gen_session_option_eq]
    cases hentry : spec_option_entry (dev.config_info x).datatype
        (dev.config (dev.config_info x).key) with
    | none => exact ⟨rfl, rfl⟩
    | some v =>
      have hne : (dev.config_info x).name ≠ k := by
        intro hk
        rw [hx hk] at hentry
        cases hentry
      exact ⟨get_set_of_ne _ _ _ _ hne, contains_set_of_ne _ _ _ _ hne⟩

/-- After the option loop a key holds `v` when every option named like it has
the entry `v`, and either such an option is in the list or the key held `v`
before. -/
theorem foldl_option_written (dev : DeviceAgent) (k : String) (v : QJsonValue) :
    ∀ (options : List Int) (sessionVar : QJsonObject),
      (∀ o ∈ options, (dev.config_info o).name = k →
        spec_option_entry (dev.config_info o).datatype (dev.config (dev.config_info o).key)
          = some v) →
      ((∃ o ∈ options, (dev.config_info o).name = k) ∨ QJsonObject.get sessionVar k = v) →
      QJsonObject.get (options.foldl (gen_session_option dev) sessionVar) k = v := by
  intro options
  induction options with
  | nil =>
    intro sessionVar _ h
    rcases h with ⟨o, ho, _⟩ | h
    · cases ho
    · exact h
  | cons x xs ih =>
    intro sessionVar hall h
    simp only [List.foldl_cons]
    apply ih (gen_session_option dev sessionVar x)
      (fun o ho => hall o (List.mem_cons_of_mem x ho))
    by_cases hk : (dev.config_info x).name = k
    · right
      rw [gen_session_option_eq, hall x (List.mem_cons_self x xs) hk]
      simp only
      rw [hk]
      exact get_set_self _ _ _
    · rcases h with ⟨o, ho, hname⟩ | h
      · left
        rcases List.mem_cons.mp ho with hox | hoxs
        · subst hox
          exact absurd hname hk
        · exact ⟨o, hoxs, hname⟩
      · right
        rw [gen_session_option_eq]
        cases hentry : spec_option_entry (dev.config_info x).datatype
            (dev.config (dev.config_info x).key) with
        | none => exact h
        | some v2 =>
          simp only
          rw [get_set_of_ne _ _ _ _ hk]
          exact h

end DSView

namespace DSView

/-! ## The document that `gen_session_json` writes -/

/-- A key other than the four section keys holds in the document what it held
after the option loop. -/
theorem gen_session_json_get_other (w : MainWindow) (sessionVar : QJsonObject)
    (options : List Int) (k : String) (hlist : w.device_agent.config_list = some options)
    (h1 : "channel" ≠ k) (h2 : "trigger" ≠ k) (h3 : "decoder" ≠ k) (h4 : "measure" ≠ k) :
    QJsonObject.get (gen_session_json w sessionVar).sessionVar k =
      QJsonObject.get (options.foldl (gen_session_option w.device_agent)
        (QJsonObject.set (QJsonObject.set (QJsonObject.set (QJsonObject.set sessionVar
          "Version" (QJsonValue.double BASE_SESSION_VERSION))
          "Device" (QJsonValue.string w.device_agent.driver_name))
          "DeviceMode" (QJsonValue.double w.device_agent.work_mode))
          "Language" (QJsonValue.double w.frameOptions.language))) k ∧
    QJsonObject.contains (gen_session_json w sessionVar).sessionVar k =
      QJsonObject.contains (options.foldl (gen_session_option w.device_agent)
        (QJsonObject.set (QJsonObject.set (QJsonObject.set (QJsonObject.set sessionVar
          "Version" (QJsonValue.double BASE_SESSION_VERSION))
          "Device" (QJsonValue.string w.device_agent.driver_name))
          "DeviceMode" (QJsonValue.double w.device_agent.work_mode))
          "Language" (QJsonValue.double w.frameOptions.language))) k := by
  unfold gen_session_json
  simp only [hlist]
  split_ifs <;>
    simp only [get_set_of_ne _ _ _ _ h1, get_set_of_ne _ _ _ _ h2, get_set_of_ne _ _ _ _ h3,
      get_set_of_ne _ _ _ _ h4, contains_set_of_ne _ _ _ _ h1, contains_set_of_ne _ _ _ _ h2,
      contains_set_of_ne _ _ _ _ h3, contains_set_of_ne _ _ _ _ h4, and_self]

/-- The option list of a device on which `gen_session_json` succeeds. -/
theorem gen_session_json_options (w : MainWindow) (sessionVar : QJsonObject)
    (h : (gen_session_json w sessionVar).ret = true) :
    ∃ options, w.device_agent.config_list = some options := by
  unfold gen_session_json at h
  cases hlist : w.device_agent.config_list with
  | none => simp [hlist] at h
  | some options => exact ⟨options, rfl⟩

/-- The channel record of a signal consists of the common fields followed by
the fields of its kind. -/
theorem gen_session_channel_eq (s : Signal) :
    gen_session_channel s = spec_channel_fields s ++ spec_kind_fields s.kind := by
  unfold gen_session_channel gen_session_kind spec_channel_fields spec_kind_fields
  cases s.kind <;> cases s.colour.isValid <;> simp [QJsonObject.set]

/-- The channel array of the document: one record for each signal, in the order
of the signal list. -/
theorem gen_session_json_get_channel (w : MainWindow) (sessionVar : QJsonObject)
    (h : (gen_session_json w sessionVar).ret = true) :
    QJsonObject.get (gen_session_json w sessionVar).sessionVar "channel" =
      QJsonValue.array (w.signals.map (fun s => QJsonValue.object (gen_session_channel s))) := by
  obtain ⟨options, hlist⟩ := gen_session_json_options w sessionVar h
  unfold gen_session_json
  simp only [hlist]
  split_ifs <;>
    simp only [get_set_of_ne _ "trigger" "channel" _ (by decide),
      get_set_of_ne _ "decoder" "channel" _ (by decide),
      get_set_of_ne _ "measure" "channel" _ (by decide), get_set_self]

end DSView

namespace DSView

/-! ## Session data as a string, and the session file -/

/-- C11: when `gen_session_json` fails, `genSessionData` returns `false` and
leaves the output string unchanged; when it succeeds, `genSessionData` returns
`true` and the output string is its previous content followed by the JSON text
of the generated session object. -/
theorem genSessionData_ret (toJson : QJsonObject → String) (w : MainWindow) (str : String) :
    ((gen_session_json w []).ret = false →
      (genSessionData toJson w str).ret = false ∧ (genSessionData toJson w str).str = str) ∧
    ((gen_session_json w []).ret = true →
      (genSessionData toJson w str).ret = true ∧
      (genSessionData toJson w str).str = str ++ toJson (gen_session_json w []).sessionVar) := by
  unfold genSessionData
  cases hgen : (gen_session_json w []).ret <;> simp [hgen]

/-- C12, counterexample: for a device that `name()` calls `Demo Device` and
`driver_name()` calls `virtual-demo`, `session_save` stores the session under
the path made of `Demo Device`, which is not the path made of the driver
name. -/
theorem session_save_file_name_not_driver_name :
    (session_save keyListWriter sampleDirs "" (openFs "") namedWindow).stored
      = some "/home/u/.local/share/DSView/Demo Device0.ses25.dsc" ∧
    "/home/u/.local/share/DSView/Demo Device0.ses25.dsc"
      ≠ sampleDirs.absolutePath ++ "/" ++ namedWindow.device_agent.driver_name
        ++ QString.numberInt namedWindow.device_agent.work_mode
        ++ (".ses" ++ QString.numberInt namedWindow.frameOptions.language) ++ ".dsc" := by
  constructor <;> decide

/-- C12, as amended: whenever `session_save` stores a session, the path it
passes to `on_store_session` is the application data directory, "/", the device
name that `_device_agent->name()` returns (the code keeps it in a variable
called `driver_name`; it is not the result of `driver_name()`), the decimal
work mode number, ".ses", the decimal language code and ".dsc"; the file system
it leaves is the one `on_store_session` leaves for that path. -/
theorem session_save_file_name (toJson : QJsonObject → String) (dirs : AppDataLocation)
    (saveState : String) (fs : QFileSystem) (w : MainWindow) (file_name : String)
    (h : (session_save toJson dirs saveState fs w).stored = some file_name) :
    file_name = dirs.absolutePath ++ "/" ++ w.device_agent.name
        ++ QString.numberInt w.device_agent.work_mode
        ++ (".ses" ++ QString.numberInt w.frameOptions.language) ++ ".dsc" ∧
    (session_save toJson dirs saveState fs w).fs
      = (on_store_session toJson fs w file_name).fs := by
  revert h
  unfold session_save
  cases h1 : w.device_agent.have_instance <;> cases h2 : dirs.mkpath <;>
    cases h3 : strncmp_virtual w.device_agent.name <;>
    cases h4 : (dirs.absolutePath ++ "/" ++ w.device_agent.name
        ++ QString.numberInt w.device_agent.work_mode
        ++ (".ses" ++ QString.numberInt w.frameOptions.language) ++ ".dsc").isEmpty <;>
    simp [h1, h2, h3, h4]
  intro h
  subst h
  exact ⟨rfl, rfl⟩

/-- C12, witness: the session file of the sample logic analyser in mode 0 with
language 25. -/
theorem session_save_file_name_witness :
    (session_save keyListWriter sampleDirs "" (sampleFs "") (sampleWindow true "0")).stored
      = some "/home/u/.local/share/DSView/DSLogic0.ses25.dsc" ∧
    "/home/u/.local/share/DSView/DSLogic0.ses25.dsc"
      = sampleDirs.absolutePath ++ "/" ++ (sampleWindow true "0").device_agent.name
        ++ QString.numberInt (sampleWindow true "0").device_agent.work_mode
        ++ (".ses" ++ QString.numberInt (sampleWindow true "0").frameOptions.language)
        ++ ".dsc" :=
  ⟨by decide,
   (session_save_file_name keyListWriter sampleDirs "" (sampleFs "") (sampleWindow true "0")
      "/home/u/.local/share/DSView/DSLogic0.ses25.dsc" (by decide)).1⟩

/-- C14: on success the "channel" array written by `gen_session_json` has one
record for each live signal, in the order of the signal list, and the index,
type, enabled flag and name of each record are those of its signal; its colour
is the colour of the signal when that is valid and the string "default"
otherwise. -/
theorem gen_session_json_channel_records (w : MainWindow) (sessionVar : QJsonObject)
    (h : (gen_session_json w sessionVar).ret = true) :
    (QJsonObject.get (gen_session_json w sessionVar).sessionVar "channel").toArray.length
      = w.signals.length ∧
    (QJsonObject.get (gen_session_json w sessionVar).sessionVar "channel").toArray.map
        (fun record => ["index", "type", "enabled", "name", "colour"].map
          (fun k => QJsonObject.get record.toObject k))
      = w.signals.map (fun s =>
          [QJsonValue.double s.index, QJsonValue.double s.type, QJsonValue.bool s.enabled,
           QJsonValue.string s.name,
           QJsonValue.string (if s.colour.isValid then s.colour.name else "default")]) := by
  rw [gen_session_json_get_channel w sessionVar h]
  refine ⟨by simp [QJsonValue.toArray], ?_⟩
  simp only [QJsonValue.toArray, List.map_map]
  apply List.map_congr_left
  intro s _
  simp only [Function.comp, QJsonValue.toObject, gen_session_channel_eq, spec_channel_fields]
  cases s.kind <;> simp [QJsonObject.get, spec_kind_fields]

/-- C14, witness: the two signals of the oscilloscope sample. -/
theorem gen_session_json_channel_records_witness :
    (QJsonObject.get (gen_session_json optionWindow []).sessionVar "channel").toArray.map
        (fun record => ["index", "type", "enabled", "name", "colour"].map
          (fun k => QJsonObject.get record.toObject k))
      = optionWindow.signals.map (fun s =>
          [QJsonValue.double s.index, QJsonValue.double s.type, QJsonValue.bool s.enabled,
           QJsonValue.string s.name,
           QJsonValue.string (if s.colour.isValid then s.colour.name else "default")]) :=
  (gen_session_json_channel_records optionWindow [] (by decide)).2

/-- C19: a channel record written by `gen_session_json` consists of the common
fields followed by exactly the fields of the kind of its signal: "strigger" for
a logic signal; "vdiv", "vfactor", "coupling", "trigValue", "zeroPos" for an
oscilloscope signal; "vdiv", "vfactor", "coupling", "zeroPos", "mapUnit",
"mapMin", "mapMax" for an analog signal; each with the value read from the
signal. -/
theorem gen_session_json_kind_fields (w : MainWindow) (sessionVar : QJsonObject)
    (h : (gen_session_json w sessionVar).ret = true) :
    QJsonObject.get (gen_session_json w sessionVar).sessionVar "channel" =
      QJsonValue.array (w.signals.map (fun s =>
        QJsonValue.object (spec_channel_fields s ++ spec_kind_fields s.kind))) := by
  rw [gen_session_json_get_channel w sessionVar h]
  congr 1
  apply List.map_congr_left
  intro s _
  rw [gen_session_channel_eq]

/-- C19, witness: the records of the oscilloscope and the analog signal of the
sample. -/
theorem gen_session_json_kind_fields_witness :
    (QJsonObject.get (gen_session_json optionWindow []).sessionVar "channel").toArray.map
        (fun record => record.toObject.map Prod.fst)
      = [["index", "type", "enabled", "name", "colour",
          "vdiv", "vfactor", "coupling", "trigValue", "zeroPos"],
         ["index", "type", "enabled", "name", "colour",
          "vdiv", "vfactor", "coupling", "zeroPos", "mapUnit", "mapMin", "mapMax"]] := by
  rw [gen_session_json_kind_fields optionWindow [] (by decide)]
  decide

end DSView

namespace DSView

/-! ## Device options, header and sections of the document -/

/-- An option that is not written gets no entry. -/
theorem optionWritten_false (dev : DeviceAgent) (opt : Int)
    (h : optionWritten dev opt = false) :
    spec_option_entry (dev.config_info opt).datatype (dev.config (dev.config_info opt).key)
      = none := by
  unfold optionWritten at h
  cases hentry : spec_option_entry (dev.config_info opt).datatype
      (dev.config (dev.config_info opt).key) with
  | none => rfl
  | some v => simp [hentry] at h

/-- The digit character of a number below ten denotes that number. -/
theorem digitChar_toNat (d : Nat) (h : d < 10) : (Nat.digitChar d).toNat - 48 = d := by
  interval_cases d <;> rfl

/-- Reading back the digits that `Nat.toDigitsCore` puts before `ds`. -/
theorem decimalValue_toDigitsCore : ∀ (fuel n : Nat) (ds : List Char), n < fuel →
    decimalValue 0 (Nat.toDigitsCore 10 fuel n ds) = decimalValue n ds := by
  intro fuel
  induction fuel with
  | zero => intro n ds h; omega
  | succ fuel ih =>
    intro n ds h
    unfold Nat.toDigitsCore
    by_cases h0 : n / 10 = 0
    · have hn : n % 10 = n := Nat.mod_eq_of_lt (by omega)
      have hd := digitChar_toNat (n % 10) (Nat.mod_lt _ (by decide))
      rw [hn] at hd
      simp only [h0, if_true, hn, decimalValue, List.foldl_cons, hd, Nat.mul_zero, Nat.zero_add]
    · simp only [h0, if_false]
      rw [ih (n / 10) _ (by omega)]
      simp only [decimalValue, List.foldl_cons,
        digitChar_toNat (n % 10) (Nat.mod_lt _ (by decide))]
      congr 1
      omega

/-- The decimal text of a natural number determines the number. -/
theorem repr_injective (a b : Nat) (h : Nat.repr a = Nat.repr b) : a = b := by
  have h2 : Nat.toDigits 10 a = Nat.toDigits 10 b := by
    unfold Nat.repr List.asString at h
    exact congrArg String.data h
  have ha := decimalValue_toDigitsCore (a + 1) a [] (by omega)
  have hb := decimalValue_toDigitsCore (b + 1) b [] (by omega)
  unfold Nat.toDigits at h2
  rw [h2] at ha
  simpa [decimalValue] using ha.symm.trans hb

/-- C13, counterexample: on the oscilloscope sample the SR_T_BOOL option "Clock"
with the value true is written as the number 1, not as a boolean.  On a device
whose options are named `channel`, `Rate` (twice), `Language` (without a value):
the key "channel" holds the channel array, not the string of the option; the
key "Rate" holds the string of the second option, not that of the first; and
the option "Language", which has no value, finds an entry under its name. -/
theorem gen_session_json_option_not_as_claimed :
    (gen_session_json optionWindow []).ret = true ∧
    QJsonObject.get (gen_session_json optionWindow []).sessionVar "Clock"
      = QJsonValue.double 1 ∧
    (QJsonObject.get (gen_session_json optionWindow []).sessionVar "Clock").isBool = false ∧
    (gen_session_json collidingWindow []).ret = true ∧
    (QJsonObject.get (gen_session_json collidingWindow []).sessionVar "channel").isString
      = false ∧
    (QJsonObject.get (gen_session_json collidingWindow []).sessionVar "Rate").toString = "b" ∧
    QJsonObject.contains (gen_session_json collidingWindow []).sessionVar "Language" = true := by
  refine ⟨by decide, rfl, by decide, by decide, by decide, by decide, by decide⟩

/-- C13, as amended: for every option of the session option list of the device
whose name is none of "channel", "trigger", "decoder", "measure" and is the
name of no other listed option, the document written by `gen_session_json`
maps the name of the option to the number 1 or 0 for SR_T_BOOL, to the decimal
string of the value for SR_T_UINT64 and SR_T_UINT8, to a number for SR_T_FLOAT
and to a string for SR_T_CHAR when the option has a value; an option whose
value is unavailable or whose datatype is none of these gets no entry, when its
name is none of "Version", "Device", "DeviceMode", "Language" and the object
passed in has no such key.  Different values have different decimal strings,
so a 64-bit value is kept exactly. -/
theorem gen_session_json_option_entry (w : MainWindow) (sessionVar : QJsonObject)
    (options : List Int) (opt : Int)
    (hlist : w.device_agent.config_list = some options) (hmem : opt ∈ options)
    (hsec : (w.device_agent.config_info opt).name ∉ ["channel", "trigger", "decoder", "measure"])
    (honly : ∀ o ∈ options,
      (w.device_agent.config_info o).name = (w.device_agent.config_info opt).name → o = opt) :
    (∀ v, spec_option_entry (w.device_agent.config_info opt).datatype
          (w.device_agent.config (w.device_agent.config_info opt).key) = some v →
      QJsonObject.get (gen_session_json w sessionVar).sessionVar
        (w.device_agent.config_info opt).name = v) ∧
    (spec_option_entry (w.device_agent.config_info opt).datatype
          (w.device_agent.config (w.device_agent.config_info opt).key) = none →
      (w.device_agent.config_info opt).name ∉ ["Version", "Device", "DeviceMode", "Language"] →
      QJsonObject.contains sessionVar (w.device_agent.config_info opt).name = false →
      QJsonObject.contains (gen_session_json w sessionVar).sessionVar
        (w.device_agent.config_info opt).name = false) ∧
    (∀ a b : Nat, QString.number a = QString.number b → a = b) := by
  simp only [List.mem_cons, List.mem_singleton, List.not_mem_nil, or_false, not_or] at hsec
  have hother := gen_session_json_get_other w sessionVar options
    (w.device_agent.config_info opt).name hlist (Ne.symm hsec.1) (Ne.symm hsec.2.1)
    (Ne.symm hsec.2.2.1) (Ne.symm hsec.2.2.2)
  refine ⟨?_, ?_, fun a b hab => repr_injective a b hab⟩
  · intro v hv
    rw [hother.1]
    apply foldl_option_written
    · intro o ho hname
      rw [honly o ho hname]
      exact hv
    · exact Or.inl ⟨opt, hmem, rfl⟩
  · intro hnone hhead hobj
    simp only [List.mem_cons, List.mem_singleton, List.not_mem_nil, or_false, not_or] at hhead
    rw [hother.2]
    rw [(foldl_option_untouched w.device_agent _ options _ (fun o ho hname => by
      rw [honly o ho hname]
      exact hnone)).2]
    rw [contains_set_of_ne _ _ _ _ (Ne.symm hhead.2.2.2),
      contains_set_of_ne _ _ _ _ (Ne.symm hhead.2.2.1),
      contains_set_of_ne _ _ _ _ (Ne.symm hhead.2.1),
      contains_set_of_ne _ _ _ _ (Ne.symm hhead.1)]
    exact hobj

/-- C13, witness: on the oscilloscope sample the 64-bit option "Sample rate"
with the value 2^64 - 1 is written as its decimal string, the SR_T_BOOL option
"Clock" as the number 1, and the option "Stream", which has no value, gets no
entry. -/
theorem gen_session_json_option_entry_witness :
    QJsonObject.get (gen_session_json optionWindow []).sessionVar "Sample rate"
      = QJsonValue.string "18446744073709551615" ∧
    QJsonObject.get (gen_session_json optionWindow []).sessionVar "Clock"
      = QJsonValue.double 1 ∧
    QJsonObject.contains (gen_session_json optionWindow []).sessionVar "Stream" = false :=
  ⟨(gen_session_json_option_entry optionWindow [] [1, 2, 3, 4, 5, 6, 7] 2 rfl (by decide)
      (by decide) (by decide)).1 (QJsonValue.string "18446744073709551615") rfl,
   (gen_session_json_option_entry optionWindow [] [1, 2, 3, 4, 5, 6, 7] 1 rfl (by decide)
      (by decide) (by decide)).1 (QJsonValue.double 1) rfl,
   (gen_session_json_option_entry optionWindow [] [1, 2, 3, 4, 5, 6, 7] 6 rfl (by decide)
      (by decide) (by decide)).2.1 rfl (by decide) rfl⟩

/-- C18, counterexample: on a device with an SR_T_UINT64 option named "Version"
that has the value 7, `gen_session_json` succeeds and the document maps
"Version" to the string "7", which reads as a version below
BASE_SESSION_VERSION. -/
theorem gen_session_json_header_overwritten :
    (gen_session_json collidingWindow []).ret = true ∧
    QJsonObject.get (gen_session_json collidingWindow []).sessionVar "Version"
      = QJsonValue.string "7" ∧
    (QJsonObject.get (gen_session_json collidingWindow []).sessionVar "Version").toInt
      < BASE_SESSION_VERSION := by
  refine ⟨by decide, rfl, by decide⟩

/-- C18, as amended: every document produced by a successful `gen_session_json`
has "Version" equal to BASE_SESSION_VERSION, which is not below the minimum
supported version, and has "Device", "DeviceMode" and "Language" equal to the
driver name, the work mode and the language of the application configuration,
provided no option of the session option list that gets an entry is named
"Version", "Device", "DeviceMode" or "Language": the entry of such an option is
written later into the same object and replaces the header field. -/
theorem gen_session_json_header (w : MainWindow) (sessionVar : QJsonObject)
    (options : List Int) (hlist : w.device_agent.config_list = some options)
    (hhead : ∀ opt ∈ options,
      (w.device_agent.config_info opt).name ∈ ["Version", "Device", "DeviceMode", "Language"] →
      optionWritten w.device_agent opt = false) :
    (gen_session_json w sessionVar).ret = true ∧
    QJsonObject.get (gen_session_json w sessionVar).sessionVar "Version"
      = QJsonValue.double BASE_SESSION_VERSION ∧
    ¬ (QJsonObject.get (gen_session_json w sessionVar).sessionVar "Version").toInt
        < BASE_SESSION_VERSION ∧
    QJsonObject.get (gen_session_json w sessionVar).sessionVar "Device"
      = QJsonValue.string w.device_agent.driver_name ∧
    QJsonObject.get (gen_session_json w sessionVar).sessionVar "DeviceMode"
      = QJsonValue.double w.device_agent.work_mode ∧
    QJsonObject.get (gen_session_json w sessionVar).sessionVar "Language"
      = QJsonValue.double w.frameOptions.language := by
  have hret : (gen_session_json w sessionVar).ret = true := by
    unfold gen_session_json
    simp only [hlist]
  have hget : ∀ k ∈ ["Version", "Device", "DeviceMode", "Language"],
      QJsonObject.get (gen_session_json w sessionVar).sessionVar k =
        QJsonObject.get
          (QJsonObject.set (QJsonObject.set (QJsonObject.set (QJsonObject.set sessionVar
            "Version" (QJsonValue.double BASE_SESSION_VERSION))
            "Device" (QJsonValue.string w.device_agent.driver_name))
            "DeviceMode" (QJsonValue.double w.device_agent.work_mode))
            "Language" (QJsonValue.double w.frameOptions.language)) k := by
    intro k hk
    have hk3 : "channel" ≠ k ∧ "trigger" ≠ k ∧ "decoder" ≠ k ∧ "measure" ≠ k := by
      simp only [List.mem_cons, List.mem_singleton, List.not_mem_nil, or_false] at hk
      rcases hk with rfl | rfl | rfl | rfl <;> decide
    rw [(gen_session_json_get_other w sessionVar options k hlist hk3.1 hk3.2.1 hk3.2.2.1
      hk3.2.2.2).1]
    exact (foldl_option_untouched w.device_agent k options _ (fun o ho hname =>
      optionWritten_false w.device_agent o (hhead o ho (hname ▸ hk)))).1
  have hversion : QJsonObject.get (gen_session_json w sessionVar).sessionVar "Version"
      = QJsonValue.double BASE_SESSION_VERSION := by
    rw [hget "Version" (by decide),
      get_set_of_ne _ "Language" "Version" _ (by decide),
      get_set_of_ne _ "DeviceMode" "Version" _ (by decide),
      get_set_of_ne _ "Device" "Version" _ (by decide), get_set_self]
  refine ⟨hret, hversion, ?_, ?_, ?_, ?_⟩
  · rw [hversion]
    simp [QJsonValue.toInt, BASE_SESSION_VERSION]
  · rw [hget "Device" (by decide),
      get_set_of_ne _ "Language" "Device" _ (by decide),
      get_set_of_ne _ "DeviceMode" "Device" _ (by decide), get_set_self]
  · rw [hget "DeviceMode" (by decide),
      get_set_of_ne _ "Language" "DeviceMode" _ (by decide), get_set_self]
  · rw [hget "Language" (by decide), get_set_self]

/-- C18, witness: the header of the document of the oscilloscope sample. -/
theorem gen_session_json_header_witness :
    QJsonObject.get (gen_session_json optionWindow []).sessionVar "Version"
      = QJsonValue.double 2 ∧
    QJsonObject.get (gen_session_json optionWindow []).sessionVar "Device"
      = QJsonValue.string "DSCope" :=
  ⟨(gen_session_json_header optionWindow [] [1, 2, 3, 4, 5, 6, 7] rfl (by decide)).2.1,
   (gen_session_json_header optionWindow [] [1, 2, 3, 4, 5, 6, 7] rfl (by decide)).2.2.2.1⟩

end DSView

namespace DSView

/-- C20, counterexample: on a device in work mode DSO with an SR_T_CHAR option
named "trigger" that has a value, `gen_session_json` succeeds and the document
has a "trigger" key though the work mode is not LOGIC; the same holds on the
oscilloscope sample when the object passed in already has a "trigger" key. -/
theorem gen_session_json_trigger_in_dso :
    (gen_session_json collidingWindow []).ret = true ∧
    collidingWindow.device_agent.work_mode ≠ LOGIC ∧
    QJsonObject.contains (gen_session_json collidingWindow []).sessionVar "trigger" = true ∧
    (gen_session_json optionWindow [("trigger", QJsonValue.null)]).ret = true ∧
    optionWindow.device_agent.work_mode ≠ LOGIC ∧
    QJsonObject.contains
      (gen_session_json optionWindow [("trigger", QJsonValue.null)]).sessionVar "trigger"
      = true := by
  refine ⟨by decide, by decide, by decide, by decide, by decide, by decide⟩

/-- C20, as amended: in every document that a successful `gen_session_json`
writes, the "decoder" and "channel" arrays are present; the "trigger" key is
present exactly when the work mode is LOGIC and the "measure" key exactly when
the work mode is DSO, provided the object passed in has neither key (as the
fresh object of both callers) and no option of the session option list that
gets an entry is named "trigger" or "measure". -/
theorem gen_session_json_sections (w : MainWindow) (sessionVar : QJsonObject)
    (options : List Int) (hlist : w.device_agent.config_list = some options)
    (hobj : QJsonObject.contains sessionVar "trigger" = false ∧
      QJsonObject.contains sessionVar "measure" = false)
    (hsec : ∀ opt ∈ options,
      (w.device_agent.config_info opt).name ∈ ["trigger", "measure"] →
      optionWritten w.device_agent opt = false) :
    (gen_session_json w sessionVar).ret = true ∧
    (QJsonObject.contains (gen_session_json w sessionVar).sessionVar "trigger" = true
      ↔ w.device_agent.work_mode = LOGIC) ∧
    (QJsonObject.contains (gen_session_json w sessionVar).sessionVar "measure" = true
      ↔ w.device_agent.work_mode = DSO) ∧
    QJsonObject.contains (gen_session_json w sessionVar).sessionVar "decoder" = true ∧
    QJsonObject.contains (gen_session_json w sessionVar).sessionVar "channel" = true ∧
    QJsonObject.get (gen_session_json w sessionVar).sessionVar "decoder"
      = QJsonValue.array w.decoders ∧
    (∃ records, QJsonObject.get (gen_session_json w sessionVar).sessionVar "channel"
      = QJsonValue.array records) := by
  have h : (gen_session_json w sessionVar).ret = true := by
    unfold gen_session_json
    simp only [hlist]
  have htrig := (foldl_option_untouched w.device_agent "trigger" options
    (QJsonObject.set (QJsonObject.set (QJsonObject.set (QJsonObject.set sessionVar
      "Version" (QJsonValue.double BASE_SESSION_VERSION))
      "Device" (QJsonValue.string w.device_agent.driver_name))
      "DeviceMode" (QJsonValue.double w.device_agent.work_mode))
      "Language" (QJsonValue.double w.frameOptions.language))
    (fun o ho hname => optionWritten_false w.device_agent o
      (hsec o ho (by rw [hname]; decide)))).2
  have hmeas := (foldl_option_untouched w.device_agent "measure" options
    (QJsonObject.set (QJsonObject.set (QJsonObject.set (QJsonObject.set sessionVar
      "Version" (QJsonValue.double BASE_SESSION_VERSION))
      "Device" (QJsonValue.string w.device_agent.driver_name))
      "DeviceMode" (QJsonValue.double w.device_agent.work_mode))
      "Language" (QJsonValue.double w.frameOptions.language))
    (fun o ho hname => optionWritten_false w.device_agent o
      (hsec o ho (by rw [hname]; decide)))).2
  have hhead : ∀ k, "Version" ≠ k → "Device" ≠ k → "DeviceMode" ≠ k → "Language" ≠ k →
      QJsonObject.contains (QJsonObject.set (QJsonObject.set (QJsonObject.set
        (QJsonObject.set sessionVar
        "Version" (QJsonValue.double BASE_SESSION_VERSION))
        "Device" (QJsonValue.string w.device_agent.driver_name))
        "DeviceMode" (QJsonValue.double w.device_agent.work_mode))
        "Language" (QJsonValue.double w.frameOptions.language)) k
        = QJsonObject.contains sessionVar k := by
    intro k h1 h2 h3 h4
    rw [contains_set_of_ne _ _ _ _ h4, contains_set_of_ne _ _ _ _ h3,
      contains_set_of_ne _ _ _ _ h2, contains_set_of_ne _ _ _ _ h1]
  rw [hhead "trigger" (by decide) (by decide) (by decide) (by decide), hobj.1] at htrig
  rw [hhead "measure" (by decide) (by decide) (by decide) (by decide), hobj.2] at hmeas
  refine ⟨h, ?_, ?_, ?_, ?_, ?_, ⟨_, gen_session_json_get_channel w sessionVar h⟩⟩
  · unfold gen_session_json
    simp only [hlist]
    by_cases hL : w.device_agent.work_mode = LOGIC
    · rw [if_pos hL]
      refine iff_of_true ?_ hL
      split_ifs <;>
        simp [contains_set_self, contains_set_of_ne _ "measure" "trigger" _ (by decide),
          contains_set_of_ne _ "decoder" "trigger" _ (by decide)]
    · rw [if_neg hL]
      refine iff_of_false ?_ hL
      split_ifs <;>
        simp [contains_set_of_ne _ "measure" "trigger" _ (by decide),
          contains_set_of_ne _ "decoder" "trigger" _ (by decide),
          contains_set_of_ne _ "channel" "trigger" _ (by decide), htrig]
  · unfold gen_session_json
    simp only [hlist]
    by_cases hD : w.device_agent.work_mode = DSO
    · rw [if_pos hD]
      exact iff_of_true (contains_set_self _ _ _) hD
    · rw [if_neg hD]
      refine iff_of_false ?_ hD
      split_ifs <;>
        simp [contains_set_of_ne _ "trigger" "measure" _ (by decide),
          contains_set_of_ne _ "decoder" "measure" _ (by decide),
          contains_set_of_ne _ "channel" "measure" _ (by decide), hmeas]
  · unfold gen_session_json
    simp only [hlist]
    split_ifs <;>
      simp [contains_set_self, contains_set_of_ne _ "measure" "decoder" _ (by decide)]
  · unfold gen_session_json
    simp only [hlist]
    split_ifs <;>
      simp [contains_set_self, contains_set_of_ne _ "measure" "channel" _ (by decide),
        contains_set_of_ne _ "decoder" "channel" _ (by decide),
        contains_set_of_ne _ "trigger" "channel" _ (by decide)]
  · unfold gen_session_json
    simp only [hlist]
    split_ifs <;>
      simp [get_set_self, get_set_of_ne _ "measure" "decoder" _ (by decide)]

/-- C20, witness: the document of the oscilloscope sample (work mode DSO) has a
"measure" section and no "trigger" section. -/
theorem gen_session_json_sections_witness :
    QJsonObject.contains (gen_session_json optionWindow []).sessionVar "measure" = true ∧
    QJsonObject.contains (gen_session_json optionWindow []).sessionVar "trigger" = false ∧
    QJsonObject.contains (gen_session_json optionWindow []).sessionVar "decoder" = true :=
  ⟨(gen_session_json_sections optionWindow [] [1, 2, 3, 4, 5, 6, 7] rfl (by decide)
      (by decide)).2.2.1.mpr rfl,
   by decide,
   (gen_session_json_sections optionWindow [] [1, 2, 3, 4, 5, 6, 7] rfl (by decide)
      (by decide)).2.2.2.1⟩

/-! ## Saving before switching, and the disabled load path -/

/-- C15, counterexample: for a current device named `virtual-demo`,
`on_load_file` calls `set_file` and never `session_save`. -/
theorem on_load_file_virtual_no_save :
    (on_load_file keyListWriter sampleDirs "" (sampleFs "") virtualWindow "a.dsl" false).calls
      = [Call.set_file "a.dsl"] := by
  decide

/-- C15, as amended: `closeEvent` calls `session_save` before accepting the
close event; `on_load_file` calls `session_save` before it calls `set_file` on
the session for every current device whose name does not begin with `virtual`,
and for a device whose name begins with `virtual` it calls `set_file` without
calling `session_save`. -/
theorem session_save_before_switching (toJson : QJsonObject → String)
    (dirs : AppDataLocation) (saveState : String) (fs : QFileSystem) (w : MainWindow)
    (file_name : String) (set_file_throws : Bool) :
    (closeEvent toJson dirs saveState fs w).calls = [Call.session_save, Call.accept] ∧
    (closeEvent toJson dirs saveState fs w).window
      = (session_save toJson dirs saveState fs w).window ∧
    (strncmp_virtual w.device_agent.name = true →
      (on_load_file toJson dirs saveState fs w file_name set_file_throws).calls.take 2
        = [Call.session_save, Call.set_file file_name] ∧
      (on_load_file toJson dirs saveState fs w file_name set_file_throws).window
        = (session_save toJson dirs saveState fs w).window) ∧
    (strncmp_virtual w.device_agent.name = false →
      (on_load_file toJson dirs saveState fs w file_name set_file_throws).calls.take 1
        = [Call.set_file file_name] ∧
      Call.session_save ∉
        (on_load_file toJson dirs saveState fs w file_name set_file_throws).calls) := by
  refine ⟨rfl, rfl, ?_, ?_⟩
  · intro hv
    unfold on_load_file
    cases set_file_throws <;> simp [hv]
  · intro hv
    unfold on_load_file
    cases set_file_throws <;> simp [hv]

/-- C16, counterexample: the channel array holds two records for the probe with
index 0 and type 10000, named `first` and `last`; after `load_session_json` the
probe and its signal are still named `0`, not `last`. -/
theorem load_session_json_duplicate_not_applied :
    channelRecordKeys duplicateChannelDoc.toObject = [(0, 10000), (0, 10000)] ∧
    (QJsonObject.get duplicateChannelDoc.toObject "channel").toArray.map
        (fun record => (QJsonObject.get record.toObject "name").toString) = ["first", "last"] ∧
    (load_session_json (sampleWindow true "0") duplicateChannelDoc false true
      ).2.device_agent.channels.map (fun probe => (probe.index, probe.type, probe.name))
      = [(0, 10000, "0")] ∧
    (load_session_json (sampleWindow true "0") duplicateChannelDoc false true
      ).2.signals.map (fun s => (s.index, s.type, s.name)) = [(0, 10000, "0")] := by
  refine ⟨by decide, by decide, by decide, by decide⟩

/-- C16, as amended: when the "channel" array of the document holds two records
with the same (index, type) pair, `load_session_json` applies neither of them:
the live channels (device probes and signals) keep their settings. -/
theorem load_session_json_duplicate_records (w : MainWindow) (json : QJsonDocument)
    (file_dev bDecoder : Bool) (h : ¬ (channelRecordKeys json.toObject).Nodup) :
    (load_session_json w json file_dev bDecoder).2.device_agent.channels
      = w.device_agent.channels ∧
    (load_session_json w json file_dev bDecoder).2.signals = w.signals :=
  ⟨rfl, rfl⟩

/-- C16, witness: the document with two records for the same probe. -/
theorem load_session_json_duplicate_records_witness :
    ¬ (channelRecordKeys duplicateChannelDoc.toObject).Nodup ∧
    (load_session_json (sampleWindow true "0") duplicateChannelDoc false true).2.signals
      = (sampleWindow true "0").signals :=
  ⟨by decide,
   (load_session_json_duplicate_records (sampleWindow true "0") duplicateChannelDoc false true
      (by decide)).2⟩

/-- C17: for every JSON document and every value of the `file_dev` and
`bDecoder` flags, `load_session_json` returns `true` and leaves the whole live
state (device options, channels, signals, trigger, decoder and measurement
state) as it was; so `on_load_session` returns `true` exactly when the file
opens for reading, and it too leaves the state as it was. -/
theorem load_session_json_disabled (fromJson : String → QJsonDocument) (fs : QFileSystem)
    (w : MainWindow) (json : QJsonDocument) (file_dev bDecoder : Bool) (name : String) :
    load_session_json w json file_dev bDecoder = (true, w) ∧
    ((on_load_session fromJson fs w name).1 = true ↔ fs.canRead name = true) ∧
    (on_load_session fromJson fs w name).2 = w := by
  refine ⟨rfl, ?_, ?_⟩
  · unfold on_load_session
    cases hread : fs.canRead name <;> simp [load_session_json]
  · unfold on_load_session
    cases hread : fs.canRead name <;> simp [load_session_json]

end DSView

namespace DSView

/-! ## The channel status line of the error dialog -/

/-- The characters of the string that `ch_status_loop` returns. -/
theorem ch_status_loop_data : ∀ (n i : Nat) (ch_status : String) (error_pattern : Nat),
    (ch_status_loop n i ch_status error_pattern).data
      = ch_status.data ++ ch_status_cells n i error_pattern := by
  intro n
  induction n with
  | zero => intro i s p; simp [ch_status_loop, ch_status_cells]
  | succ n ih =>
    intro i s p
    simp only [ch_status_loop, ch_status_cells]
    rw [ih]
    by_cases hbit : p % 2 = 1 <;> by_cases hi : i > 9 <;>
      simp [hbit, hi, String.data_append]

/-- The characters appended over the sixteen passes are those of the status
line as the claim describes it. -/
theorem ch_status_cells_spec (p : Nat) :
    ch_status_cells 16 0 (p % 2 ^ 64) = spec_ch_status p := by
  have h16 : List.range 16 = [0, 1, 2, 3, 4, 5, 6, 7, 8, 9, 10, 11, 12, 13, 14, 15] := by decide
  have h38 : List.range 38 = [0, 1, 2, 3, 4, 5, 6, 7, 8, 9, 10, 11, 12, 13, 14, 15, 16, 17,
      18, 19, 20, 21, 22, 23, 24, 25, 26, 27, 28, 29, 30, 31, 32, 33, 34, 35, 36, 37] := by
    decide
  have hb0 : p % 18446744073709551616 % 2 = p % 2 := by omega
  have hb1 : p % 18446744073709551616 / 2 % 2 = p / 2 % 2 := by omega
  have hb2 : p % 18446744073709551616 / 4 % 2 = p / 4 % 2 := by omega
  have hb3 : p % 18446744073709551616 / 8 % 2 = p / 8 % 2 := by omega
  have hb4 : p % 18446744073709551616 / 16 % 2 = p / 16 % 2 := by omega
  have hb5 : p % 18446744073709551616 / 32 % 2 = p / 32 % 2 := by omega
  have hb6 : p % 18446744073709551616 / 64 % 2 = p / 64 % 2 := by omega
  have hb7 : p % 18446744073709551616 / 128 % 2 = p / 128 % 2 := by omega
  have hb8 : p % 18446744073709551616 / 256 % 2 = p / 256 % 2 := by omega
  have hb9 : p % 18446744073709551616 / 512 % 2 = p / 512 % 2 := by omega
  have hb10 : p % 18446744073709551616 / 1024 % 2 = p / 1024 % 2 := by omega
  have hb11 : p % 18446744073709551616 / 2048 % 2 = p / 2048 % 2 := by omega
  have hb12 : p % 18446744073709551616 / 4096 % 2 = p / 4096 % 2 := by omega
  have hb13 : p % 18446744073709551616 / 8192 % 2 = p / 8192 % 2 := by omega
  have hb14 : p % 18446744073709551616 / 16384 % 2 = p / 16384 % 2 := by omega
  have hb15 : p % 18446744073709551616 / 32768 % 2 = p / 32768 % 2 := by omega
  simp [spec_ch_status, h16, h38, labelColumn, ch_status_cells, Nat.div_div_eq_div_mul,
    hb0, hb1, hb2, hb3, hb4, hb5, hb6, hb7, hb8, hb9, hb10, hb11, hb12, hb13, hb14, hb15]

/-- The status line as the claim describes it, written out character by
character. -/
theorem spec_ch_status_eq (error_pattern : Nat) :
    spec_ch_status error_pattern =
      [(if error_pattern % 2 = 1 then 'X' else ' '), ' ',
       (if error_pattern / 2 % 2 = 1 then 'X' else ' '), ' ',
       (if error_pattern / 4 % 2 = 1 then 'X' else ' '), ' ',
       (if error_pattern / 8 % 2 = 1 then 'X' else ' '), ' ',
       (if error_pattern / 16 % 2 = 1 then 'X' else ' '), ' ',
       (if error_pattern / 32 % 2 = 1 then 'X' else ' '), ' ',
       (if error_pattern / 64 % 2 = 1 then 'X' else ' '), ' ',
       (if error_pattern / 128 % 2 = 1 then 'X' else ' '), ' ',
       (if error_pattern / 256 % 2 = 1 then 'X' else ' '), ' ',
       (if error_pattern / 512 % 2 = 1 then 'X' else ' '), ' ',
       (if error_pattern / 1024 % 2 = 1 then 'X' else ' '), ' ', ' ',
       (if error_pattern / 2048 % 2 = 1 then 'X' else ' '), ' ', ' ',
       (if error_pattern / 4096 % 2 = 1 then 'X' else ' '), ' ', ' ',
       (if error_pattern / 8192 % 2 = 1 then 'X' else ' '), ' ', ' ',
       (if error_pattern / 16384 % 2 = 1 then 'X' else ' '), ' ', ' ',
       (if error_pattern / 32768 % 2 = 1 then 'X' else ' '), ' ', ' '] := by
  have h16 : List.range 16 = [0, 1, 2, 3, 4, 5, 6, 7, 8, 9, 10, 11, 12, 13, 14, 15] := by decide
  have h38 : List.range 38 = [0, 1, 2, 3, 4, 5, 6, 7, 8, 9, 10, 11, 12, 13, 14, 15, 16, 17,
      18, 19, 20, 21, 22, 23, 24, 25, 26, 27, 28, 29, 30, 31, 32, 33, 34, 35, 36, 37] := by
    decide
  simp [spec_ch_status, h16, h38, labelColumn]

/-- The status line as the claim describes it depends only on the low 16 bits
of the pattern. -/
theorem spec_ch_status_low_bits (error_pattern : Nat) :
    spec_ch_status (error_pattern % 2 ^ 16) = spec_ch_status error_pattern := by
  have hb0 : error_pattern % 65536 % 2 = error_pattern % 2 := by omega
  have hb1 : error_pattern % 65536 / 2 % 2 = error_pattern / 2 % 2 := by omega
  have hb2 : error_pattern % 65536 / 4 % 2 = error_pattern / 4 % 2 := by omega
  have hb3 : error_pattern % 65536 / 8 % 2 = error_pattern / 8 % 2 := by omega
  have hb4 : error_pattern % 65536 / 16 % 2 = error_pattern / 16 % 2 := by omega
  have hb5 : error_pattern % 65536 / 32 % 2 = error_pattern / 32 % 2 := by omega
  have hb6 : error_pattern % 65536 / 64 % 2 = error_pattern / 64 % 2 := by omega
  have hb7 : error_pattern % 65536 / 128 % 2 = error_pattern / 128 % 2 := by omega
  have hb8 : error_pattern % 65536 / 256 % 2 = error_pattern / 256 % 2 := by omega
  have hb9 : error_pattern % 65536 / 512 % 2 = error_pattern / 512 % 2 := by omega
  have hb10 : error_pattern % 65536 / 1024 % 2 = error_pattern / 1024 % 2 := by omega
  have hb11 : error_pattern % 65536 / 2048 % 2 = error_pattern / 2048 % 2 := by omega
  have hb12 : error_pattern % 65536 / 4096 % 2 = error_pattern / 4096 % 2 := by omega
  have hb13 : error_pattern % 65536 / 8192 % 2 = error_pattern / 8192 % 2 := by omega
  have hb14 : error_pattern % 65536 / 16384 % 2 = error_pattern / 16384 % 2 := by omega
  have hb15 : error_pattern % 65536 / 32768 % 2 = error_pattern / 32768 % 2 := by omega
  rw [spec_ch_status_eq, spec_ch_status_eq]
  simp [hb0, hb1, hb2, hb3, hb4, hb5, hb6, hb7, hb8, hb9, hb10, hb11, hb12, hb13, hb14, hb15]

/-- The characters of the channel status line are those the claim describes. -/
theorem on_session_error_ch_status_data (error_pattern : Nat) :
    (on_session_error_ch_status error_pattern).data = spec_ch_status error_pattern := by
  unfold on_session_error_ch_status
  rw [ch_status_loop_data, ch_status_cells_spec]
  rfl

/-- C23: for every error pattern, the channel status line that
`on_session_error` builds for a test data error depends only on the low 16
bits, has length 38, has for each i in 0..15 an `X` at the column where the
label i starts in the header "0 1 2 3 4 5 6 7 8 9 10 11 12 13 14 15" when bit i
is set and a space there otherwise, and has a space at every other place. -/
theorem on_session_error_ch_status_columns (error_pattern : Nat) :
    on_session_error_ch_status error_pattern
      = on_session_error_ch_status (error_pattern % 2 ^ 16) ∧
    (on_session_error_ch_status error_pattern).length = 38 ∧
    (∀ i < 16, (on_session_error_ch_status error_pattern).data[labelColumn i]?
      = some (if error_pattern / 2 ^ i % 2 = 1 then 'X' else ' ')) ∧
    (∀ j < 38, j ∉ (List.range 16).map labelColumn →
      (on_session_error_ch_status error_pattern).data[j]? = some ' ') ∧
    (∀ i < 16, (ch_status_header.data.drop (labelColumn i)).take (Nat.repr i).length
      = (Nat.repr i).data) := by
  refine ⟨?_, ?_, ?_, ?_, by decide⟩
  · apply String.ext
    rw [on_session_error_ch_status_data, on_session_error_ch_status_data,
      spec_ch_status_low_bits]
  · rw [String.length, on_session_error_ch_status_data]
    simp [spec_ch_status]
  · intro i hi
    rw [on_session_error_ch_status_data, spec_ch_status_eq]
    interval_cases i <;> simp [labelColumn]
  · intro j hj hcol
    rw [on_session_error_ch_status_data, spec_ch_status_eq]
    have hcases : j ∈ (List.range 16).map labelColumn ∨
        j ∈ [1, 3, 5, 7, 9, 11, 13, 15, 17, 19, 21, 22, 24, 25, 27, 28, 30, 31, 33, 34, 36, 37] := by
      interval_cases j <;> decide
    rcases hcases with h | h
    · exact absurd h hcol
    · simp only [List.mem_cons, List.mem_singleton, List.not_mem_nil, or_false] at h
      rcases h with rfl | rfl | rfl | rfl | rfl | rfl | rfl | rfl | rfl | rfl | rfl | rfl | rfl
        | rfl | rfl | rfl | rfl | rfl | rfl | rfl | rfl | rfl <;> rfl

end DSView

namespace DSView

/-! ## Storing on save, the trigger docks, the dial keys and the language -/

/-- A text that ends in `.dsc` is not empty. -/
theorem isEmpty_append_dsc (a : String) : (a ++ ".dsc").isEmpty = false := by
  rw [Bool.eq_false_iff]
  intro h
  have h1 := (String.isEmpty_iff _).mp h
  have h2 := congrArg String.length h1
  simp only [String.length_append, String.length_empty, Nat.add_eq_zero] at h2
  exact absurd h2.2 (by decide)

/-- The window state that `on_store_session` leaves is the one it was called in. -/
theorem on_store_session_window (toJson : QJsonObject → String) (fs : QFileSystem)
    (w : MainWindow) (name : String) : (on_store_session toJson fs w name).window = w := by
  have hgen : (gen_session_json w []).window = w := by
    unfold gen_session_json
    cases hlist : w.device_agent.config_list <;> rfl
  unfold on_store_session
  cases hopen : fs.canWrite name <;> cases hret : (gen_session_json w []).ret <;>
    simp [hret, hgen]

/-- C21: `on_store_session` opens the target file write-only, which empties it,
before it serializes; so when the file opens but `gen_session_json` fails, it
returns `false`, nothing is written and the file is empty, whatever it held
before. -/
theorem on_store_session_failed_truncates (toJson : QJsonObject → String) (fs : QFileSystem)
    (w : MainWindow) (name : String) (hopen : fs.canWrite name = true)
    (hgen : (gen_session_json w []).ret = false) :
    (on_store_session toJson fs w name).ret = false ∧
    (on_store_session toJson fs w name).fs.data name = "" ∧
    (∀ other, other ≠ name →
      (on_store_session toJson fs w name).fs.data other = fs.data other) := by
  unfold on_store_session
  simp only [hopen, hgen, Bool.not_true, Bool.not_false, if_true, if_false, Bool.false_eq_true]
  refine ⟨trivial, by simp [QFileSystem.write], ?_⟩
  intro other hne
  simp [QFileSystem.write, hne]

/-- C21, witness: the file `session.dsc` holds an old session and the device
has no session option list; after the failed store the file is empty. -/
theorem on_store_session_failed_truncates_witness :
    (sampleFs "old session").data "session.dsc" = "old session" ∧
    (on_store_session keyListWriter (sampleFs "old session") noSessionWindow "session.dsc").ret
      = false ∧
    (on_store_session keyListWriter (sampleFs "old session") noSessionWindow
      "session.dsc").fs.data "session.dsc" = "" :=
  ⟨by decide,
   (on_store_session_failed_truncates keyListWriter (sampleFs "old session") noSessionWindow
      "session.dsc" (by decide) (by decide)).1,
   (on_store_session_failed_truncates keyListWriter (sampleFs "old session") noSessionWindow
      "session.dsc" (by decide) (by decide)).2.1⟩

/-- C22, counterexample: for a device that `driver_name()` calls `virtual-demo`
and `name()` calls `Demo Device`, with an instance and a data directory that
can be made, `session_save` calls `on_store_session`, which writes the session
file, though the driver name begins with `virtual`. -/
theorem session_save_stores_virtual_driver :
    namedWindow.device_agent.driver_name.data.take 7 = "virtual".data ∧
    namedWindow.device_agent.have_instance = true ∧ sampleDirs.mkpath = true ∧
    (session_save keyListWriter sampleDirs "" (openFs "") namedWindow).stored
      = some "/home/u/.local/share/DSView/Demo Device0.ses25.dsc" ∧
    (session_save keyListWriter sampleDirs "" (openFs "") namedWindow).fs.data
        "/home/u/.local/share/DSView/Demo Device0.ses25.dsc"
      = "Version,Device,DeviceMode,Language,channel,trigger,decoder" := by
  refine ⟨by decide, by decide, by decide, by decide, by decide⟩

/-- C22, as amended: `session_save` calls `on_store_session` exactly when the
device agent has an instance, the application data directory can be made and
the device name that `_device_agent->name()` returns (not the driver name) does
not begin with the seven characters `virtual`: then the file system it leaves
is the one `on_store_session` leaves for the session file, and otherwise the
file system is as it was.  Without a device instance it returns without storing
a session and without saving the window state, and otherwise it saves the
window state whether or not a session was stored. -/
theorem session_save_stores_iff (toJson : QJsonObject → String) (dirs : AppDataLocation)
    (saveState : String) (fs : QFileSystem) (w : MainWindow) :
    ((w.device_agent.have_instance = true ∧ dirs.mkpath = true ∧
        w.device_agent.name.data.take 7 ≠ "virtual".data) →
      (session_save toJson dirs saveState fs w).stored
        = some (dirs.absolutePath ++ "/" ++ w.device_agent.name
          ++ QString.numberInt w.device_agent.work_mode
          ++ (".ses" ++ QString.numberInt w.frameOptions.language) ++ ".dsc") ∧
      (session_save toJson dirs saveState fs w).fs
        = (on_store_session toJson fs w (dirs.absolutePath ++ "/" ++ w.device_agent.name
          ++ QString.numberInt w.device_agent.work_mode
          ++ (".ses" ++ QString.numberInt w.frameOptions.language) ++ ".dsc")).fs) ∧
    (¬ (w.device_agent.have_instance = true ∧ dirs.mkpath = true ∧
        w.device_agent.name.data.take 7 ≠ "virtual".data) →
      (session_save toJson dirs saveState fs w).stored = none ∧
      (session_save toJson dirs saveState fs w).fs = fs) ∧
    (w.device_agent.have_instance = false →
      (session_save toJson dirs saveState fs w).stored = none ∧
      (session_save toJson dirs saveState fs w).savedFrame = none ∧
      (session_save toJson dirs saveState fs w).window = w ∧
      (session_save toJson dirs saveState fs w).fs = fs) ∧
    (w.device_agent.have_instance = true →
      (session_save toJson dirs saveState fs w).savedFrame
        = some { w.frameOptions with windowState := saveState } ∧
      (session_save toJson dirs saveState fs w).window.frameOptions.windowState = saveState) := by
  have hempty := isEmpty_append_dsc (dirs.absolutePath ++ "/" ++ w.device_agent.name
    ++ QString.numberInt w.device_agent.work_mode
    ++ (".ses" ++ QString.numberInt w.frameOptions.language))
  have hwin := on_store_session_window toJson fs w (dirs.absolutePath ++ "/"
    ++ w.device_agent.name ++ QString.numberInt w.device_agent.work_mode
    ++ (".ses" ++ QString.numberInt w.frameOptions.language) ++ ".dsc")
  have hvirt : strncmp_virtual w.device_agent.name = true ↔
      w.device_agent.name.data.take 7 ≠ "virtual".data := by
    simp [strncmp_virtual]
  unfold session_save
  cases h1 : w.device_agent.have_instance <;> cases h2 : dirs.mkpath <;>
    cases h3 : strncmp_virtual w.device_agent.name <;>
    simp [h3, hempty, hwin, ← hvirt]

end DSView

namespace DSView

/-- C24: after `on_trigger(visible)` at most one of the two trigger docks is
visible: when the work mode is not DSO the visibility of the logic trigger dock
equals `visible` and the DSO trigger dock is hidden, and when the work mode is
DSO the visibility of the DSO trigger dock equals `visible` and the logic
trigger dock is hidden. -/
theorem on_trigger_docks (w : MainWindow) (visible : Bool) :
    (w.device_agent.work_mode ≠ DSO →
      (on_trigger w visible).trigger_dock_visible = visible ∧
      (on_trigger w visible).dso_trigger_dock_visible = false) ∧
    (w.device_agent.work_mode = DSO →
      (on_trigger w visible).dso_trigger_dock_visible = visible ∧
      (on_trigger w visible).trigger_dock_visible = false) ∧
    ¬ ((on_trigger w visible).trigger_dock_visible = true ∧
       (on_trigger w visible).dso_trigger_dock_visible = true) := by
  unfold on_trigger
  by_cases hmode : w.device_agent.work_mode = DSO <;> simp [hmode]

/-- What the dial key with the given index does to one signal. -/
theorem set_vDialActive_key_spec (index : Int) (s : Signal) :
    (∀ d, s.kind = SignalKind.dso d → s.index ≠ index →
      ∃ e, (set_vDialActive_key index s).kind = SignalKind.dso e ∧ e.vDialActive = false) ∧
    (∀ d, s.kind = SignalKind.dso d → s.index = index →
      ∃ e, (set_vDialActive_key index s).kind = SignalKind.dso e ∧
        e.vDialActive = !d.vDialActive) ∧
    ((∀ d, s.kind ≠ SignalKind.dso d) → set_vDialActive_key index s = s) ∧
    (set_vDialActive_key index s).index = s.index := by
  unfold set_vDialActive_key
  cases hk : s.kind with
  | dso d =>
    by_cases hi : s.index = index
    · simp [hi]
    · simp [hi]
  | logic l => simp
  | analog a => simp
  | plain => simp

/-- Pressing the dial key twice gives a signal with that index back as it was. -/
theorem set_vDialActive_key_twice (index : Int) (s : Signal) (h : s.index = index) :
    set_vDialActive_key index (set_vDialActive_key index s) = s := by
  obtain ⟨i, t, en, nm, col, kind⟩ := s
  cases kind with
  | dso d =>
    simp only at h
    simp [set_vDialActive_key, h]
  | logic l => rfl
  | analog a => rfl
  | plain => rfl

/-- C25: after `eventFilter` handles a press of `Key_0` (respectively `Key_1`),
every oscilloscope signal whose index is not 0 (respectively 1) has its
vertical dial inactive and every oscilloscope signal with that index has its
dial-active flag negated; two presses of the same key in a row give every
signal with that index back as it was; signals that are no oscilloscope signals
are untouched and the filter returns `true`. -/
theorem eventFilter_dial_key (go_vDialNext go_vDialPre : DsoSignal → DsoSignal)
    (w : MainWindow) (key : Key) (index : Int)
    (hkey : (key = Key.Key_0 ∧ index = 0) ∨ (key = Key.Key_1 ∧ index = 1)) :
    (eventFilter go_vDialNext go_vDialPre w (QEvent.KeyPress key)).1 = true ∧
    List.Forall₂
      (fun s t =>
        (∀ d, s.kind = SignalKind.dso d → s.index ≠ index →
          ∃ e, t.kind = SignalKind.dso e ∧ e.vDialActive = false) ∧
        (∀ d, s.kind = SignalKind.dso d → s.index = index →
          ∃ e, t.kind = SignalKind.dso e ∧ e.vDialActive = !d.vDialActive) ∧
        ((∀ d, s.kind ≠ SignalKind.dso d) → t = s) ∧
        t.index = s.index)
      w.signals (eventFilter go_vDialNext go_vDialPre w (QEvent.KeyPress key)).2.signals ∧
    List.Forall₂ (fun s t => s.index = index → t = s)
      w.signals
      (eventFilter go_vDialNext go_vDialPre
        (eventFilter go_vDialNext go_vDialPre w (QEvent.KeyPress key)).2
        (QEvent.KeyPress key)).2.signals := by
  have hsig : (eventFilter go_vDialNext go_vDialPre w (QEvent.KeyPress key)).2.signals
      = w.signals.map (set_vDialActive_key index) := by
    rcases hkey with ⟨rfl, rfl⟩ | ⟨rfl, rfl⟩ <;> rfl
  have hsig2 : (eventFilter go_vDialNext go_vDialPre
        (eventFilter go_vDialNext go_vDialPre w (QEvent.KeyPress key)).2
        (QEvent.KeyPress key)).2.signals
      = (w.signals.map (set_vDialActive_key index)).map (set_vDialActive_key index) := by
    rcases hkey with ⟨rfl, rfl⟩ | ⟨rfl, rfl⟩ <;> rfl
  refine ⟨rfl, ?_, ?_⟩
  · rw [hsig, List.forall₂_map_right_iff, List.forall₂_same]
    intro s _
    exact set_vDialActive_key_spec index s
  · rw [hsig2, List.map_map, List.forall₂_map_right_iff, List.forall₂_same]
    intro s _ h
    exact set_vDialActive_key_twice index s h

/-- C25, witness: `Key_1` on a state with oscilloscope signals on probes 0 and 1,
the dial of the second active, and a logic signal. -/
theorem eventFilter_dial_key_witness :
    (eventFilter id id dialWindow (QEvent.KeyPress Key.Key_1)).1 = true ∧
    List.Forall₂ (fun s t => s.index = 1 → t = s)
      dialWindow.signals
      (eventFilter id id (eventFilter id id dialWindow (QEvent.KeyPress Key.Key_1)).2
        (QEvent.KeyPress Key.Key_1)).2.signals :=
  ⟨(eventFilter_dial_key id id dialWindow Key.Key_1 1 (Or.inr ⟨rfl, rfl⟩)).1,
   (eventFilter_dial_key id id dialWindow Key.Key_1 1 (Or.inr ⟨rfl, rfl⟩)).2.2⟩

/-- C26: `switchLanguage(0)` changes nothing at all; for every language below 0
the stored application language is left as it was; for every language above 0
the stored application language is `language` afterwards, also for codes that
are neither LAN_CN nor LAN_EN, which are only reported as unknown. -/
theorem switchLanguage_stored (w : MainWindow) (language : Int) :
    switchLanguage w 0 =
      { window := w, set_config := none, savedFrame := none, translators := none,
        retranslated := false, unknown_reported := false } ∧
    (language < 0 →
      (switchLanguage w language).window.frameOptions.language = w.frameOptions.language ∧
      (switchLanguage w language).savedFrame = none) ∧
    (language > 0 →
      (switchLanguage w language).window.frameOptions.language = language) ∧
    (language > 0 → language ≠ LAN_CN → language ≠ LAN_EN →
      (switchLanguage w language).window.frameOptions.language = language ∧
      (switchLanguage w language).unknown_reported = true ∧
      (switchLanguage w language).translators = none ∧
      (switchLanguage w language).retranslated = false) := by
  refine ⟨rfl, ?_, ?_, ?_⟩
  · intro hneg
    have h0 : language ≠ 0 := by omega
    unfold switchLanguage
    rw [if_neg h0]
    split_ifs
    all_goals first
      | exact ⟨rfl, rfl⟩
      | (exfalso; omega)
  · intro hpos
    have h0 : language ≠ 0 := by omega
    unfold switchLanguage
    rw [if_neg h0]
    split_ifs
    all_goals first
      | rfl
      | (show w.frameOptions.language = language; omega)
  · intro hpos hcn hen
    have h0 : language ≠ 0 := by omega
    unfold switchLanguage
    rw [if_neg h0, if_neg hcn, if_neg hen]
    split_ifs
    all_goals first
      | exact ⟨rfl, rfl, rfl, rfl⟩
      | exact ⟨(by show w.frameOptions.language = language; omega), rfl, rfl, rfl⟩

end DSView
